import Mathlib

/-!
Shallow embedding of the exercise translation layer of the coros-mcp
repository (`src/coros_mcp/api/exercises.py`, `src/coros_mcp/api/model.py`,
`src/coros_mcp/sdk/types.py`), together with proofs about the claims on
that layer.

Python dicts are modelled as insertion-ordered association lists over a
small value universe `JVal`; Python floats are modelled as exact rationals
(`Rat`), built exclusively through `mkRat` and integer arithmetic so that
every definition evaluates inside the kernel.  A Python function that can
raise is embedded into `Except String` (or `Option` where the message is
immaterial); `.get` lookups with defaults are embedded with `Option.getD`.
-/

namespace CorosSpec

/-- Decidable equality of `Except` results (missing from the library). -/
instance {ε α : Type} [DecidableEq ε] [DecidableEq α] : DecidableEq (Except ε α) := fun x y =>
  match x, y with
  | .ok a, .ok b =>
    if h : a = b then .isTrue (congrArg Except.ok h)
    else .isFalse (fun he => h (Except.ok.inj he))
  | .ok _, .error _ => .isFalse (fun he => Except.noConfusion he)
  | .error _, .ok _ => .isFalse (fun he => Except.noConfusion he)
  | .error e, .error f =>
    if h : e = f then .isTrue (congrArg Except.error h)
    else .isFalse (fun he => h (Except.error.inj he))

/-- Python/JSON values that occur in COROS exercise dicts: integers,
floats (as exact rationals), strings, booleans and the two integer-list
fields (`equipment`, `part`). -/
inductive JVal where
  | jInt (n : Int)
  | jRat (q : Rat)
  | jStr (s : String)
  | jBool (b : Bool)
  | jIntList (l : List Int)
deriving DecidableEq

export JVal (jInt jRat jStr jBool jIntList)

/-- A Python dict with string keys, as an insertion-ordered association
list (the embedded code never builds a dict with a duplicated key). -/
abbrev PyDict : Type := List (String × JVal)

/-- `d.get(k)` without a default: the first binding of `k`. -/
def pyGet (d : PyDict) (k : String) : Option JVal :=
  match d with
  | [] => none
  | (k2, v) :: rest => if k2 = k then some v else pyGet rest k

/-- `k in d`. -/
def pyHasKey (d : PyDict) (k : String) : Bool :=
  (pyGet d k).isSome

/-- The per-binding replacement that `pySet` maps over the dict. -/
def pySetFun (k : String) (v : JVal) (kv : String × JVal) : String × JVal :=
  if kv.1 = k then (k, v) else kv

/-- `d[k] = v`: replace the binding in place if the key exists (Python
dicts keep the original insertion position), append otherwise. -/
def pySet (d : PyDict) (k : String) (v : JVal) : PyDict :=
  if pyHasKey d k then
    d.map (pySetFun k v)
  else
    d ++ [(k, v)]

/-- Truthiness of a Python value (`bool(v)`). -/
def vTruthy : JVal → Bool
  | jInt n => n != 0
  | jRat q => q.num != 0
  | jStr s => s != ""
  | jBool b => b
  | jIntList l => !l.isEmpty

/-- Truthiness of a possibly missing value: `None` is falsy. -/
def pyTruthy : Option JVal → Bool
  | none => false
  | some v => vTruthy v

/-- The numeric reading of a value, when Python arithmetic accepts it
(bools count as 0/1); `none` for strings and lists. -/
def JVal.asNum : JVal → Option Rat
  | jInt n => some (mkRat n 1)
  | jRat q => some q
  | jBool b => some (mkRat (if b then 1 else 0) 1)
  | _ => none

/-- Python `v == k` for an integer literal `k` (numeric cross-type
equality; strings and lists never equal an int). -/
def pyEqInt (v : JVal) (k : Int) : Bool :=
  match v.asNum with
  | some q => q == mkRat k 1
  | none => false

/-- Python `v == k` for a possibly missing value (`None == k` is false). -/
def pyEqIntOpt (o : Option JVal) (k : Int) : Bool :=
  match o with
  | some v => pyEqInt v k
  | none => false

/-- Python `==` between two values: numeric values compare numerically
(True == 1, 2.0 == 2), strings and lists structurally. -/
def pyEqVal (a b : JVal) : Bool :=
  match a.asNum, b.asNum with
  | some x, some y => x == y
  | _, _ =>
    match a, b with
    | jStr s, jStr t => s == t
    | jIntList l, jIntList m => l == m
    | _, _ => false

/-! Exact-rational helpers.  All arithmetic goes through `mkRat` and `Int`
operations, which reduce in the kernel (`Rat.add`/`Rat.mul`/`Rat.div` do
not). -/

/-- The rational with value `n`. -/
def ratOfInt (n : Int) : Rat := mkRat n 1

/-- `q * n` for an integer `n`. -/
def qMulInt (q : Rat) (n : Int) : Rat := mkRat (q.num * n) q.den

/-- `q / n` for a positive integer `n` (Python true division). -/
def qDivInt (q : Rat) (n : Nat) : Rat := mkRat q.num (q.den * n)

/-- Python `int(q)`: truncation toward zero. -/
def qTrunc (q : Rat) : Int := q.num.tdiv q.den

/-- Round to the nearest integer, ties to even: the rounding of Python's
`round` on exactly representable values. -/
def roundHalfEven (q : Rat) : Int :=
  let f := q.num.fdiv (q.den : Int)
  let r := q.num.fmod (q.den : Int)
  if 2 * r < (q.den : Int) then f
  else if 2 * r > (q.den : Int) then f + 1
  else if f % 2 = 0 then f else f + 1

/-- Python `round(q, 2)` (on values exactly representable at centimeter
granularity; float tie-behaviour is not modelled beyond ties-to-even). -/
def pyRound2 (q : Rat) : Rat := mkRat (roundHalfEven (qMulInt q 100)) 100

/-! Character-level string utilities mirroring the Python builtins used by
the source: `str.split(sep)`, `str.split(sep, 1)`, `str.strip()`,
`int(s)`, `str.lower()` and decimal formatting. -/

/-- The whitespace Python's `strip()` removes (ASCII subset). -/
def pyIsSpace (c : Char) : Bool :=
  c == ' ' || c == '\t' || c == '\n' || c == '\r' || c == '\x0b' || c == '\x0c'

/-- `s.strip()`. -/
def stripChars (l : List Char) : List Char :=
  ((l.dropWhile pyIsSpace).reverse.dropWhile pyIsSpace).reverse

/-- `s.split(sep)` for a one-character separator: always returns at least
one (possibly empty) piece. -/
def splitChars (sep : Char) : List Char → List (List Char)
  | [] => [[]]
  | c :: rest =>
    let r := splitChars sep rest
    if c = sep then [] :: r
    else
      match r with
      | h :: t => (c :: h) :: t
      | [] => [[c]]

/-- The decimal digit character for `n < 10`. -/
def digitChar (n : Nat) : Char := Char.ofNat (48 + n)

/-- Is `c` an ASCII decimal digit? -/
def isDigitChar (c : Char) : Bool := 48 ≤ c.toNat && c.toNat ≤ 57

/-- The value of a digit string (assuming digits). -/
def digitsVal (l : List Char) : Nat :=
  l.foldl (fun a c => a * 10 + (c.toNat - 48)) 0

/-- A nonempty all-digit string's value, else `none`. -/
def digitsToNat (l : List Char) : Option Nat :=
  if !l.isEmpty && l.all isDigitChar then some (digitsVal l) else none

/-- Python `int(s)`: strip whitespace, optional sign, decimal digits
(`ValueError` = `none`; numeric underscores are not modelled). -/
def pyIntChars (l : List Char) : Option Int :=
  let t := stripChars l
  if t.head? = some '-' then (digitsToNat (t.drop 1)).map (fun n => -(n : Int))
  else if t.head? = some '+' then (digitsToNat (t.drop 1)).map (fun n => (n : Int))
  else (digitsToNat t).map (fun n => (n : Int))

/-- Decimal rendering with fuel, so that the definition is structurally
recursive and reduces inside the kernel. -/
def natToCharsAux : Nat → Nat → List Char
  | 0, _ => []
  | f + 1, n =>
    if n < 10 then [digitChar n]
    else natToCharsAux f (n / 10) ++ [digitChar (n % 10)]

/-- Decimal digits of `n`, most significant first, no leading zeros. -/
def natToChars (n : Nat) : List Char := natToCharsAux (n + 1) n

/-- Python `str(n)` for an integer. -/
def intToChars (n : Int) : List Char :=
  if n < 0 then '-' :: natToChars n.natAbs else natToChars n.toNat

/-- Python `f"{n:02d}"`: zero-pad to width 2. -/
def pad2Chars (n : Int) : List Char :=
  if 0 ≤ n && n < 10 then '0' :: natToChars n.toNat else intToChars n

/-- `s.lower()` (ASCII; the sport table's keys are ASCII). -/
def pyLower (s : String) : String := String.mk (s.data.map Char.toLower)

/-- Python `str(v)` of a value, as interpolated into an f-string.  Float
repr is modelled faithfully only for integer-valued floats (the only ones
the embedded code ever renders). -/
def pyStr : JVal → String
  | jInt n => String.mk (intToChars n)
  | jRat q => if q.den = 1 then String.mk (intToChars q.num) ++ ".0" else toString q
  | jStr s => s
  | jBool b => if b then "True" else "False"
  | jIntList l => "[" ++ String.intercalate ", " (l.map (fun n => String.mk (intToChars n))) ++ "]"

/-- Lexicographic strict order on character lists by code point (the
order Python compares strings with). -/
def strLtChars : List Char → List Char → Bool
  | [], [] => false
  | [], _ :: _ => true
  | _ :: _, [] => false
  | a :: as, b :: bs =>
    if a.toNat < b.toNat then true
    else if b.toNat < a.toNat then false
    else strLtChars as bs

/-- `x <= y` on strings by code point. -/
def strLe (x y : String) : Bool := !(strLtChars y.data x.data)

/-- Insertion sort on strings (Python `sorted` on a list of str). -/
def insertStr (x : String) : List String → List String
  | [] => [x]
  | y :: ys => if strLe x y then x :: y :: ys else y :: insertStr x ys

/-- Python `sorted` for lists of strings. -/
def sortStrings : List String → List String
  | [] => []
  | x :: xs => insertStr x (sortStrings xs)

/-! Constants from `sdk/types.py`. -/

namespace ExerciseType

def GROUP : Int := 0

def WARMUP : Int := 1

def INTERVAL : Int := 2

def COOLDOWN : Int := 3

def RECOVERY : Int := 4

end ExerciseType

namespace TargetType

def NONE : Int := 0

def DURATION : Int := 2

def DISTANCE : Int := 5

end TargetType

namespace TargetDisplayUnit

def SECONDS : Int := 0

def METERS : Int := 1

def KILOMETERS : Int := 2

end TargetDisplayUnit

namespace RestType

def TIMED : Int := 0

def NO_REST : Int := 3

end RestType

/-- `SPORT_NAME_TO_CODE` (insertion order of the source dict). -/
def SPORT_NAME_TO_CODE : List (String × Int) :=
  [("running", 1), ("run", 1), ("trail", 3), ("strength", 4), ("hike", 5),
   ("bike", 6), ("cycling", 6), ("pool_swim", 9), ("swim", 9), ("open_water", 10)]

/-- `EXERCISE_TEMPLATES`, keyed by exercise-type code. -/
def EXERCISE_TEMPLATES : List (Int × PyDict) :=
  [(ExerciseType.WARMUP,
    [("name", jStr ("T1120")), ("overview", jStr ("sid_run_warm_up_dist")),
     ("originId", jStr ("425895398452936705")), ("createTimestamp", jInt 1586584068),
     ("defaultOrder", jInt 1)]),
   (ExerciseType.INTERVAL,
    [("name", jStr ("T3001")), ("overview", jStr ("sid_run_training")),
     ("originId", jStr ("426109589008859136")), ("createTimestamp", jInt 1587381919),
     ("defaultOrder", jInt 2), ("isDefaultAdd", jInt 1)]),
   (ExerciseType.COOLDOWN,
    [("name", jStr ("T1122")), ("overview", jStr ("sid_run_cool_down_dist")),
     ("originId", jStr ("425895456971866112")), ("createTimestamp", jInt 1586584214),
     ("defaultOrder", jInt 3)]),
   (ExerciseType.RECOVERY,
    [("name", jStr ("T1123")), ("overview", jStr ("sid_run_cool_down_dist")),
     ("originId", jStr ("425895398452936705")), ("createTimestamp", jInt 1586584214),
     ("defaultOrder", jInt 3)])]

/-- `EXERCISE_TEMPLATES.get(ExerciseType(ex_type), {})`.  (`ExerciseType(t)`
raises for a code outside 0..4, but every call site passes a code from the
enum, so the raise is unreachable and not modelled.) -/
def tmplFor (t : Int) : PyDict :=
  (((EXERCISE_TEMPLATES.find? (fun kv => kv.1 == t)).map (fun kv => kv.2)).getD [])

/-- `tmpl.get(k, default)`. -/
def tmplGet (tmpl : PyDict) (k : String) (dflt : JVal) : JVal :=
  (pyGet tmpl k).getD dflt

/-! The domain model from `api/model.py`. -/

/-- `VALID_EXERCISE_TYPES` (a Python set; order immaterial). -/
def VALID_EXERCISE_TYPES : List String :=
  ["warmup", "interval", "cooldown", "recovery"]

/-- The `Exercise` dataclass.  Floats (`duration_minutes`, `distance_km`)
are exact rationals. -/
structure Exercise where
  type : String
  duration_minutes : Option Rat := none
  distance_m : Option Int := none
  distance_km : Option Rat := none
  repeats : Option Int := none
  rest_seconds : Option Int := none
  pace_per_km : Option String := none
  hr_bpm : Option String := none
deriving DecidableEq

/-- Truthiness of an optional float field. -/
def truthyQ : Option Rat → Bool
  | none => false
  | some q => q.num != 0

/-- Truthiness of an optional int field. -/
def truthyI : Option Int → Bool
  | none => false
  | some n => n != 0

/-- Truthiness of an optional string field. -/
def truthyS : Option String → Bool
  | none => false
  | some s => s != ""

/-- `part.split(":", 1)`: the part before the first separator and the rest
(only used when the separator is present). -/
def splitFirst (sep : Char) (l : List Char) : List Char × List Char :=
  (l.takeWhile (fun c => c != sep), (l.dropWhile (fun c => c != sep)).drop 1)

/-- `_validate_pace_format`: pace must be one or two hyphen-separated
tokens, each with a colon and integer minute/second parts. -/
def _validate_pace_format (s : String) : Except String Unit := do
  let parts := splitChars '-' s.data
  if parts.length > 2 then
    throw ("Invalid pace format '" ++ s ++ "'. Use 'M:SS' or 'M:SS-M:SS'")
  for part0 in parts do
    let part := stripChars part0
    if !part.contains ':' then
      throw ("Invalid pace '" ++ String.mk part ++ "'. Use 'M:SS' format")
    let (mins, secs) := splitFirst ':' part
    if (pyIntChars mins).isNone || (pyIntChars secs).isNone then
      throw ("Invalid pace '" ++ String.mk part ++ "'. Use 'M:SS' format")

/-- `_validate_hr_format`: one or two hyphen-separated integer tokens. -/
def _validate_hr_format (s : String) : Except String Unit := do
  let parts := splitChars '-' s.data
  if parts.length > 2 then
    throw ("Invalid HR format '" ++ s ++ "'. Use 'BPM' or 'BPM-BPM'")
  for part in parts do
    if (pyIntChars (stripChars part)).isNone then
      throw ("Invalid HR '" ++ String.mk part ++ "'. Must be an integer BPM")

/-- `Exercise.validate`. -/
def validate (e : Exercise) : Except String Unit := do
  if !VALID_EXERCISE_TYPES.contains e.type then
    throw ("Invalid exercise type '" ++ e.type ++ "'. Must be one of: "
      ++ String.intercalate ", " (sortStrings VALID_EXERCISE_TYPES))
  let targets := (if e.duration_minutes.isSome then 1 else 0)
    + (if e.distance_m.isSome then 1 else 0)
    + (if e.distance_km.isSome then 1 else 0)
  if targets > 1 then
    throw ("Exercise must have at most one target: duration_minutes, distance_m, or distance_km")
  if targets == 0 && e.type != "recovery" then
    throw ("Exercise type '" ++ e.type
      ++ "' requires a target (duration_minutes, distance_m, or distance_km)")
  if e.duration_minutes.any (fun q => decide (q ≤ 0)) then
    throw ("duration_minutes must be positive")
  if e.distance_m.any (fun n => decide (n ≤ 0)) then
    throw ("distance_m must be positive")
  if e.distance_km.any (fun q => decide (q ≤ 0)) then
    throw ("distance_km must be positive")
  if e.repeats.any (fun n => decide (n < 1)) then
    throw ("repeats must be >= 1")
  if e.rest_seconds.any (fun n => decide (n < 0)) then
    throw ("rest_seconds must be >= 0")
  if let some p := e.pace_per_km then
    _validate_pace_format p
  if let some h := e.hr_bpm then
    _validate_hr_format h

/-! `api/exercises.py`: parsers. -/

/-- `_pace_str_to_ms`: convert `'M:SS'` to sec/km x 1000.  `none` models
both the unpacking `ValueError` (not exactly two colon parts) and the
`int()` `ValueError`. -/
def _pace_str_to_ms (l : List Char) : Option Int :=
  match splitChars ':' l with
  | [mins, secs] => do
    let m ← pyIntChars mins
    let s ← pyIntChars secs
    pure ((m * 60 + s) * 1000)
  | _ => none

/-- `parse_pace`: split on hyphens, parse every stripped token, return the
first value twice, or the first two values. -/
def parse_pace (s : String) : Option (Int × Int) := do
  let parts := splitChars '-' s.data
  let values ← parts.mapM (fun p => _pace_str_to_ms (stripChars p))
  match values with
  | [v] => some (v, v)
  | v0 :: v1 :: _ => some (v0, v1)
  | [] => none

/-- `parse_hr`: like `parse_pace` with plain integer tokens. -/
def parse_hr (s : String) : Option (Int × Int) := do
  let parts := splitChars '-' s.data
  let values ← parts.mapM (fun p => pyIntChars (stripChars p))
  match values with
  | [v] => some (v, v)
  | v0 :: v1 :: _ => some (v0, v1)
  | [] => none

/-! `api/exercises.py`: encoding. -/

/-- `_resolve_sport`: lowercase, look up, or fail naming the valid sports
in sorted order. -/
def _resolve_sport (sport : String) : Except String Int :=
  match SPORT_NAME_TO_CODE.lookup (pyLower sport) with
  | some code => .ok code
  | none =>
    .error ("Unknown sport '" ++ sport ++ "'. Use: "
      ++ String.intercalate ", " (sortStrings (SPORT_NAME_TO_CODE.map (fun kv => kv.1))))

/-- `_ensure_exercise` on an `Exercise` input (the dict branch of the
source converts a dict to an `Exercise` first; the embedding takes
`Exercise` values directly). -/
def _ensure_exercise (e : Exercise) : Except String Exercise := do
  validate e
  pure e

/-- `_EXERCISE_TYPE_MAP`. -/
def _EXERCISE_TYPE_MAP : List (String × Int) :=
  [("warmup", ExerciseType.WARMUP), ("interval", ExerciseType.INTERVAL),
   ("cooldown", ExerciseType.COOLDOWN), ("recovery", ExerciseType.RECOVERY)]

/-- `_build_step_defaults`: the base COROS step dict. -/
def _build_step_defaults (exercise_id sort_no ex_type sport_code : Int) : PyDict :=
  let tmpl := tmplFor ex_type
  [("access", jInt 0),
   ("createTimestamp", tmplGet tmpl ("createTimestamp") (jInt 0)),
   ("defaultOrder", tmplGet tmpl ("defaultOrder") (jInt 0)),
   ("equipment", jIntList [1]),
   ("exerciseType", jInt ex_type),
   ("groupId", jStr ("")),
   ("hrType", jInt 0),
   ("id", jInt exercise_id),
   ("intensityCustom", jInt 0),
   ("intensityDisplayUnit", jInt 0),
   ("intensityMultiplier", jInt 0),
   ("intensityPercent", jInt 0),
   ("intensityPercentExtend", jInt 0),
   ("intensityType", jInt 0),
   ("intensityValue", jInt 0),
   ("intensityValueExtend", jInt 0),
   ("isDefaultAdd", tmplGet tmpl ("isDefaultAdd") (jInt 0)),
   ("isGroup", jBool false),
   ("isIntensityPercent", jBool false),
   ("name", tmplGet tmpl ("name") (jStr (""))),
   ("originId", tmplGet tmpl ("originId") (jStr (""))),
   ("overview", tmplGet tmpl ("overview") (jStr (""))),
   ("part", jIntList [0]),
   ("restType", jInt RestType.NO_REST),
   ("restValue", jInt 0),
   ("sets", jInt 1),
   ("sortNo", jInt sort_no),
   ("sourceId", jStr ("0")),
   ("sourceUrl", jStr ("")),
   ("sportType", jInt sport_code),
   ("subType", jInt 0),
   ("targetDisplayUnit", jInt 0),
   ("targetType", jInt 0),
   ("targetValue", jInt 0),
   ("userId", jInt 0),
   ("videoUrl", jStr (""))]

/-- `ex_type = force_type or _EXERCISE_TYPE_MAP.get(ex.type, ExerciseType.INTERVAL)`
(Python `or`: a falsy — zero — forced type falls through to the map). -/
def buildExType (ex : Exercise) (force_type : Option Int) : Int :=
  match force_type with
  | some t =>
    if t != 0 then t else ((_EXERCISE_TYPE_MAP.lookup ex.type).getD ExerciseType.INTERVAL)
  | none => (_EXERCISE_TYPE_MAP.lookup ex.type).getD ExerciseType.INTERVAL

/-- The target section of `_build_step`: `if ex.duration_minutes: …
elif ex.distance_km: … elif ex.distance_m: …` over the running `result`
dict. -/
def applyTarget (ex : Exercise) (result : PyDict) : PyDict :=
  if truthyQ ex.duration_minutes then
    pySet (pySet (pySet result ("targetType") (jInt TargetType.DURATION))
      ("targetValue") (jInt (qTrunc (qMulInt (ex.duration_minutes.getD 0) 60))))
      ("targetDisplayUnit") (jInt TargetDisplayUnit.SECONDS)
  else if truthyQ ex.distance_km then
    pySet (pySet (pySet result ("targetType") (jInt TargetType.DISTANCE))
      ("targetValue") (jInt (qTrunc (qMulInt (ex.distance_km.getD 0) 100000))))
      ("targetDisplayUnit") (jInt TargetDisplayUnit.KILOMETERS)
  else if truthyI ex.distance_m then
    pySet (pySet (pySet result ("targetType") (jInt TargetType.DISTANCE))
      ("targetValue") (jInt ((ex.distance_m.getD 0) * 100)))
      ("targetDisplayUnit") (jInt TargetDisplayUnit.METERS)
  else result

/-- The intensity section of `_build_step`: `if ex.pace_per_km: …
elif ex.hr_bpm: …`.  A parse failure propagates as the `ValueError`
Python would raise. -/
def applyIntensity (ex : Exercise) (result : PyDict) : Except String PyDict :=
  if truthyS ex.pace_per_km then
    match parse_pace (ex.pace_per_km.getD "") with
    | none => throw ("ValueError")
    | some (low, high) =>
      let r1 := pySet result ("intensityType") (jInt 3)
      let r2 := pySet r1 ("intensityValue") (jInt low)
      let r3 := pySet r2 ("intensityValueExtend") (jInt high)
      let r4 := pySet r3 ("intensityMultiplier") (jInt 1000)
      let r5 := pySet r4 ("intensityDisplayUnit") (jStr ("1"))
      let r6 := pySet r5 ("intensityCustom") (jInt 0)
      pure (pySet r6 ("isIntensityPercent") (jBool false))
  else if truthyS ex.hr_bpm then
    match parse_hr (ex.hr_bpm.getD "") with
    | none => throw ("ValueError")
    | some (low, high) =>
      let r1 := pySet result ("intensityType") (jInt 2)
      let r2 := pySet r1 ("intensityValue") (jInt low)
      let r3 := pySet r2 ("intensityValueExtend") (jInt high)
      let r4 := pySet r3 ("intensityMultiplier") (jInt 0)
      let r5 := pySet r4 ("intensityDisplayUnit") (jInt 0)
      let r6 := pySet r5 ("intensityCustom") (jInt 2)
      let r7 := pySet r6 ("isIntensityPercent") (jBool false)
      pure (pySet r7 ("hrType") (jInt 3))
  else
    pure result

/-- `_build_step`: the defaults for the (possibly forced) exercise type,
the target section, then the intensity section. -/
def _build_step (ex : Exercise) (exercise_id sort_no sport_code : Int)
    (force_type : Option Int) : Except String PyDict :=
  applyIntensity ex
    (applyTarget ex
      (_build_step_defaults exercise_id sort_no (buildExType ex force_type) sport_code))

/-- `_build_group`: the COROS repeat-group dict. -/
def _build_group (exercise_id sort_no repeats : Int) (rest_seconds : Option Int) : PyDict :=
  [("access", jInt 0),
   ("defaultOrder", jInt 0),
   ("exerciseType", jInt ExerciseType.GROUP),
   ("id", jInt exercise_id),
   ("intensityCustom", jInt 0),
   ("intensityMultiplier", jInt 0),
   ("intensityType", jInt 0),
   ("intensityValue", jInt 0),
   ("intensityValueExtend", jInt 0),
   ("isDefaultAdd", jInt 0),
   ("isGroup", jBool true),
   ("name", jStr ("")),
   ("originId", jStr ("")),
   ("overview", jStr ("")),
   ("programId", jStr ("")),
   ("restType", jInt (if truthyI rest_seconds then RestType.TIMED else RestType.NO_REST)),
   ("restValue", jInt (rest_seconds.getD 0)),
   ("sets", jInt repeats),
   ("sortNo", jInt sort_no),
   ("sourceId", jStr ("0")),
   ("sourceUrl", jStr ("")),
   ("sportType", jInt 0),
   ("subType", jInt 0),
   ("targetType", jStr ("")),
   ("targetValue", jInt 0),
   ("videoUrl", jStr (""))]

/-- One iteration of `to_coros`'s general loop: the state is the records
emitted so far together with the `exercise_id` and `sort_no` counters. -/
def process_block (sport_code : Int) (st : List PyDict × Int × Int) (ex : Exercise) :
    Except String (List PyDict × Int × Int) := do
  let (recs, exercise_id, sort_no) := st
  if truthyI ex.repeats && ex.repeats.getD 0 > 1 then
    let group_id := exercise_id
    let group := _build_group group_id sort_no (ex.repeats.getD 0) ex.rest_seconds
    let recs := recs ++ [group]
    let exercise_id := exercise_id + 1
    let work0 ← _build_step ex exercise_id sort_no sport_code (some ExerciseType.INTERVAL)
    let work := pySet work0 ("groupId") (jInt group_id)
    let recs := recs ++ [work]
    let exercise_id := exercise_id + 1
    let sort_no := sort_no + 1
    if truthyI ex.rest_seconds then
      let recovery0 := _build_step_defaults exercise_id sort_no ExerciseType.RECOVERY sport_code
      let recovery1 := pySet recovery0 ("groupId") (jInt group_id)
      let recovery2 := pySet recovery1 ("targetType") (jInt TargetType.DURATION)
      let recovery3 := pySet recovery2 ("targetValue") (jInt (ex.rest_seconds.getD 0))
      let recovery := pySet recovery3 ("targetDisplayUnit") (jInt TargetDisplayUnit.SECONDS)
      pure (recs ++ [recovery], exercise_id + 1, sort_no + 1)
    else
      pure (recs, exercise_id, sort_no)
  else
    let step ← _build_step ex exercise_id sort_no sport_code none
    pure (recs ++ [step], exercise_id + 1, sort_no + 1)

/-- `[_ensure_exercise(e) for e in exercises]`: validate every block in
order, failing fast on the first invalid one. -/
def ensureAll : List Exercise → Except String (List Exercise)
  | [] => pure []
  | e :: rest => do
    let e2 ← _ensure_exercise e
    let rest2 ← ensureAll rest
    pure (e2 :: rest2)

/-- The general loop of `to_coros`, one `process_block` per block. -/
def encode_loop (sport_code : Int) (st : List PyDict × Int × Int) :
    List Exercise → Except String (List PyDict × Int × Int)
  | [] => pure st
  | ex :: rest => do
    let st2 ← process_block sport_code st ex
    encode_loop sport_code st2 rest

/-- The general path of `to_coros`: fold the loop body over the blocks
starting from `exercise_id = 1`, `sort_no = 1`. -/
def to_coros_general (parsed : List Exercise) (sport_code : Int) :
    Except String (List PyDict × Bool) := do
  let st ← encode_loop sport_code ([], 1, 1) parsed
  pure (st.1, false)

/-- `to_coros`: resolve the sport, validate every block, take the
simple-workout shortcut for a single non-interval block without repeats,
else run the general loop. -/
def to_coros (exercises : List Exercise) (sport : String) :
    Except String (List PyDict × Bool) := do
  let sport_code ← _resolve_sport sport
  let parsed ← ensureAll exercises
  match parsed with
  | [ex] =>
    if ex.type != "interval" && !truthyI ex.repeats then
      let coros_ex ← _build_step ex 1 1 sport_code none
      pure ([coros_ex], true)
    else
      to_coros_general parsed sport_code
  | _ => to_coros_general parsed sport_code

/-! `api/exercises.py`: decoding. -/

/-- `_format_pace_value`: seconds/km as `'M:SS'` (`int()` truncation,
Python floor division and nonnegative modulo). -/
def _format_pace_value (sec_per_km : Rat) : String :=
  let sec : Int := qTrunc sec_per_km
  String.mk (intToChars (sec.fdiv 60) ++ ':' :: pad2Chars (sec.emod 60))

/-- `_format_duration`: seconds as `'…h…m…s'`. -/
def _format_duration (seconds : Int) : String :=
  if seconds ≤ 0 then "0s"
  else
    let h := seconds.fdiv 3600
    let m := (seconds.emod 3600).fdiv 60
    let s := seconds.emod 60
    if h > 0 then
      String.mk (intToChars h) ++ "h" ++ String.mk (pad2Chars m) ++ "m"
        ++ String.mk (pad2Chars s) ++ "s"
    else if m > 0 then
      String.mk (intToChars m) ++ "m" ++ String.mk (pad2Chars s) ++ "s"
    else
      String.mk (intToChars s) ++ "s"

/-- The local `exercise_types` table of `from_coros`. -/
def exercise_types : List (Int × String) :=
  [(0, "repeat"), (1, "warmup"), (2, "interval"), (3, "cooldown"), (4, "recovery")]

/-- `exercise_types.get(v)`: a dict lookup keyed by ints uses Python
equality, so a float key equal to an int matches. -/
def exerciseTypesGet (v : JVal) : Option String :=
  ((exercise_types.find? (fun kv => pyEqVal (jInt kv.1) v)).map (fun kv => kv.2))

/-- The groups dict of `from_coros` (keyed by the raw `id` value, compared
with Python equality). -/
abbrev GroupsDict : Type := List (JVal × PyDict)

/-- `groups[k] = v`. -/
def groupsSet (g : GroupsDict) (k : JVal) (v : PyDict) : GroupsDict :=
  if g.any (fun kv => pyEqVal kv.1 k) then
    g.map (fun kv => if pyEqVal kv.1 k then (k, v) else kv)
  else
    g ++ [(k, v)]

/-- `k in groups`. -/
def groupsHasKey (g : GroupsDict) (k : JVal) : Bool :=
  g.any (fun kv => pyEqVal kv.1 k)

/-- The decoded `type` name: mapped code, else `f"type_..."` on the raw
value (`"type_None"` when the field is absent). -/
def decodeTypeName (o : Option JVal) : String :=
  match o with
  | none => "type_None"
  | some v =>
    match exerciseTypesGet v with
    | some name => name
    | none => "type_" ++ pyStr v

/-- The decoded entry for one step record, or a raised exception.
Arithmetic on a non-numeric field and the integer format specifier on a
float raise exactly where Python would (`TypeError`/`ValueError`); every
absent field is tolerated via `.get`. -/
def decode_step (groups : GroupsDict) (ex : PyDict) : Except String PyDict := do
  let entry : PyDict := [("type", jStr (decodeTypeName (pyGet ex ("exerciseType"))))]
  let target_type := pyGet ex ("targetType")
  let target_value := (pyGet ex ("targetValue")).getD (jInt 0)
  -- display_unit = ex.get("targetDisplayUnit", 0) is bound but unused.
  let entry ←
    if pyEqIntOpt target_type TargetType.DURATION && vTruthy target_value then
      let entry := pySet entry ("duration_seconds") target_value
      match target_value with
      | jInt n => pure (pySet entry ("duration_display") (jStr (_format_duration n)))
      | jBool b => pure (pySet entry ("duration_display") (jStr (_format_duration (if b then 1 else 0))))
      | jRat _ => throw ("ValueError")
      | _ => throw ("TypeError")
    else if pyEqIntOpt target_type TargetType.DISTANCE && vTruthy target_value then
      match target_value.asNum with
      | none => throw ("TypeError")
      | some q =>
        let meters := qDivInt q 100
        if meters ≥ mkRat 1000 1 then
          pure (pySet entry ("distance_km") (jRat (pyRound2 (qDivInt meters 1000))))
        else
          pure (pySet entry ("distance_m") (jInt (qTrunc meters)))
    else
      pure entry
  let intensity_type := (pyGet ex ("intensityType")).getD (jInt 0)
  let entry ←
    if pyEqInt intensity_type 3 then
      let multiplier := (pyGet ex ("intensityMultiplier")).getD (jInt 0)
      let value := (pyGet ex ("intensityValue")).getD (jInt 0)
      let extend := (pyGet ex ("intensityValueExtend")).getD (jInt 0)
      if pyEqInt multiplier 1000 && vTruthy value then
        match value.asNum with
        | none => throw ("TypeError")
        | some qv =>
          let base := _format_pace_value (qDivInt qv 1000)
          if vTruthy extend then
            match extend.asNum with
            | none => throw ("TypeError")
            | some qe =>
              pure (pySet entry ("pace_per_km")
                (jStr (base ++ "-" ++ _format_pace_value (qDivInt qe 1000))))
          else
            pure (pySet entry ("pace_per_km") (jStr base))
      else
        pure entry
    else if pyEqInt intensity_type 2 then
      let value := (pyGet ex ("intensityValue")).getD (jInt 0)
      let extend := (pyGet ex ("intensityValueExtend")).getD (jInt 0)
      if vTruthy value then
        let hr := pyStr value
        let hr := if vTruthy extend then hr ++ "-" ++ pyStr extend else hr
        pure (pySet entry ("hr_bpm") (jStr hr))
      else
        pure entry
    else
      pure entry
  let group_id := pyGet ex ("groupId")
  let entry :=
    match group_id with
    | some g =>
      if vTruthy g && !pyEqVal g (jStr ("")) && groupsHasKey groups g then
        pySet entry ("in_group") (jBool true)
      else entry
    | none => entry
  pure entry

/-- The loop of `from_coros`, threading the groups dict and the output
list. -/
def from_coros_go (groups : GroupsDict) (acc : List PyDict) :
    List PyDict → Except String (List PyDict)
  | [] => pure acc
  | ex :: rest => do
    if pyTruthy (pyGet ex ("isGroup")) then
      match pyGet ex ("id") with
      | none => throw ("KeyError")
      | some idv =>
        let groups := groupsSet groups idv ex
        let entry : PyDict := [("type", jStr ("repeat")), ("repeats", (pyGet ex ("sets")).getD (jInt 1))]
        let entry :=
          if pyEqIntOpt (pyGet ex ("restType")) 0 && pyTruthy (pyGet ex ("restValue")) then
            pySet entry ("rest_seconds") ((pyGet ex ("restValue")).getD (jInt 0))
          else entry
        from_coros_go groups (acc ++ [entry]) rest
    else
      let entry ← decode_step groups ex
      from_coros_go groups (acc ++ [entry]) rest

/-- `from_coros`. -/
def from_coros (coros_exercises : List PyDict) : Except String (List PyDict) :=
  from_coros_go [] [] coros_exercises

/-! Lemmas about the dict model. -/

theorem pySetFun_eq (k : String) (v : JVal) (k2 : String) (w : JVal) (h : k2 = k) :
    pySetFun k v (k2, w) = (k, v) := by
  simp [pySetFun, h]

theorem pySetFun_ne (k : String) (v : JVal) (k2 : String) (w : JVal) (h : k2 ≠ k) :
    pySetFun k v (k2, w) = (k2, w) := by
  simp [pySetFun, h]

theorem pyGet_map_set_self (d : PyDict) (k : String) (v : JVal)
    (h : (pyGet d k).isSome) :
    pyGet (d.map (pySetFun k v)) k = some v := by
  induction d with
  | nil => simp [pyGet] at h
  | cons hd tl ih =>
    obtain ⟨k2, w⟩ := hd
    by_cases hk : k2 = k
    · rw [List.map_cons, pySetFun_eq k v k2 w hk]
      simp [pyGet]
    · rw [List.map_cons, pySetFun_ne k v k2 w hk]
      simp only [pyGet, hk, if_false] at h ⊢
      exact ih h

theorem pyGet_map_set_ne (d : PyDict) (k k2 : String) (v : JVal) (h : k2 ≠ k) :
    pyGet (d.map (pySetFun k v)) k2 = pyGet d k2 := by
  induction d with
  | nil => rfl
  | cons hd tl ih =>
    obtain ⟨k3, w⟩ := hd
    by_cases hk : k3 = k
    · rw [List.map_cons, pySetFun_eq k v k3 w hk]
      have hne : k ≠ k2 := fun he => h he.symm
      have hne2 : k3 ≠ k2 := hk ▸ hne
      simp [pyGet, hne, hne2, ih]
    · rw [List.map_cons, pySetFun_ne k v k3 w hk]
      simp [pyGet, ih]

theorem pyGet_append_of_none (d e : PyDict) (k : String) (h : pyGet d k = none) :
    pyGet (d ++ e) k = pyGet e k := by
  induction d with
  | nil => rfl
  | cons hd tl ih =>
    obtain ⟨k2, w⟩ := hd
    by_cases hk : k2 = k
    · simp [pyGet, hk] at h
    · simp only [pyGet, hk, if_false] at h
      simp only [List.cons_append, pyGet, hk, if_false]
      exact ih h

theorem pyGet_append_single_ne (d : PyDict) (k k2 : String) (v : JVal) (h : k2 ≠ k) :
    pyGet (d ++ [(k, v)]) k2 = pyGet d k2 := by
  induction d with
  | nil =>
    have hne : k ≠ k2 := fun he => h he.symm
    simp [pyGet, hne]
  | cons hd tl ih =>
    obtain ⟨k3, w⟩ := hd
    by_cases hk : k3 = k2
    · simp [pyGet, hk]
    · simp only [List.cons_append, pyGet, hk, if_false]
      exact ih

theorem pyGet_pySet_self (d : PyDict) (k : String) (v : JVal) :
    pyGet (pySet d k v) k = some v := by
  unfold pySet pyHasKey
  split
  · next h => exact pyGet_map_set_self d k v (by simpa using h)
  · next h =>
    have hn : pyGet d k = none := by
      cases he : pyGet d k with
      | none => rfl
      | some w => rw [he] at h; simp at h
    rw [pyGet_append_of_none d _ k hn]
    simp [pyGet]

theorem pyGet_pySet_ne (d : PyDict) (k k2 : String) (v : JVal) (h : k2 ≠ k) :
    pyGet (pySet d k v) k2 = pyGet d k2 := by
  unfold pySet pyHasKey
  split
  · exact pyGet_map_set_ne d k k2 v h
  · exact pyGet_append_single_ne d k k2 v h

/-- `pyGet_pySet_ne` with the disequality first, for use as a rewrite. -/
theorem pyGet_pySet_skip {k k2 : String} (h : k2 ≠ k) (d : PyDict) (v : JVal) :
    pyGet (pySet d k v) k2 = pyGet d k2 :=
  pyGet_pySet_ne d k k2 v h

/-! Field lemmas about `_build_step` results. -/

theorem defaults_get_id (a b t c : Int) :
    pyGet (_build_step_defaults a b t c) ("id") = some (jInt a) := rfl

theorem defaults_get_sortNo (a b t c : Int) :
    pyGet (_build_step_defaults a b t c) ("sortNo") = some (jInt b) := rfl

theorem defaults_get_isGroup (a b t c : Int) :
    pyGet (_build_step_defaults a b t c) ("isGroup") = some (jBool false) := rfl

theorem defaults_get_groupId (a b t c : Int) :
    pyGet (_build_step_defaults a b t c) ("groupId") = some (jStr ("")) := rfl

theorem defaults_get_exerciseType (a b t c : Int) :
    pyGet (_build_step_defaults a b t c) ("exerciseType") = some (jInt t) := rfl

/-- The keys `_build_step` may overwrite on top of the defaults. -/
def stepWrittenKeys : List String :=
  ["targetType", "targetValue", "targetDisplayUnit", "intensityType",
   "intensityValue", "intensityValueExtend", "intensityMultiplier",
   "intensityDisplayUnit", "intensityCustom", "isIntensityPercent", "hrType"]

/-- `applyTarget` only writes the three target keys. -/
theorem applyTarget_get_skip (ex : Exercise) (d : PyDict) (k : String)
    (h1 : k ≠ "targetType") (h2 : k ≠ "targetValue") (h3 : k ≠ "targetDisplayUnit") :
    pyGet (applyTarget ex d) k = pyGet d k := by
  unfold applyTarget
  split
  · rw [pyGet_pySet_skip h3, pyGet_pySet_skip h2, pyGet_pySet_skip h1]
  · split
    · rw [pyGet_pySet_skip h3, pyGet_pySet_skip h2, pyGet_pySet_skip h1]
    · split
      · rw [pyGet_pySet_skip h3, pyGet_pySet_skip h2, pyGet_pySet_skip h1]
      · rfl

/-- `applyIntensity` only writes the eight intensity keys. -/
theorem applyIntensity_get_skip (ex : Exercise) (d res : PyDict) (k : String)
    (h : applyIntensity ex d = .ok res)
    (h4 : k ≠ "intensityType") (h5 : k ≠ "intensityValue")
    (h6 : k ≠ "intensityValueExtend") (h7 : k ≠ "intensityMultiplier")
    (h8 : k ≠ "intensityDisplayUnit") (h9 : k ≠ "intensityCustom")
    (h10 : k ≠ "isIntensityPercent") (h11 : k ≠ "hrType") :
    pyGet res k = pyGet d k := by
  unfold applyIntensity at h
  repeat' split at h
  all_goals
    first
    | exact Except.noConfusion h
    | (injection h with hres
       subst hres
       simp only [pyGet_pySet_skip h4, pyGet_pySet_skip h5, pyGet_pySet_skip h6,
         pyGet_pySet_skip h7, pyGet_pySet_skip h8, pyGet_pySet_skip h9,
         pyGet_pySet_skip h10, pyGet_pySet_skip h11])

/-- Any key outside `stepWrittenKeys` reads the same from a `_build_step`
result as from the defaults. -/
theorem build_step_get_stable (ex : Exercise) (a b c : Int) (ft : Option Int)
    (res : PyDict) (h : _build_step ex a b c ft = .ok res) (k : String)
    (hk : ¬ stepWrittenKeys.contains k) :
    pyGet res k = pyGet (_build_step_defaults a b (buildExType ex ft) c) k := by
  rw [List.contains_iff_exists_mem_beq] at hk
  push_neg at hk
  simp only [stepWrittenKeys, List.mem_cons, List.not_mem_nil, beq_iff_eq] at hk
  have h1 : k ≠ "targetType" := fun he => hk _ (by simp) (beq_iff_eq.2 he)
  have h2 : k ≠ "targetValue" := fun he => hk _ (by simp) (beq_iff_eq.2 he)
  have h3 : k ≠ "targetDisplayUnit" := fun he => hk _ (by simp) (beq_iff_eq.2 he)
  have h4 : k ≠ "intensityType" := fun he => hk _ (by simp) (beq_iff_eq.2 he)
  have h5 : k ≠ "intensityValue" := fun he => hk _ (by simp) (beq_iff_eq.2 he)
  have h6 : k ≠ "intensityValueExtend" := fun he => hk _ (by simp) (beq_iff_eq.2 he)
  have h7 : k ≠ "intensityMultiplier" := fun he => hk _ (by simp) (beq_iff_eq.2 he)
  have h8 : k ≠ "intensityDisplayUnit" := fun he => hk _ (by simp) (beq_iff_eq.2 he)
  have h9 : k ≠ "intensityCustom" := fun he => hk _ (by simp) (beq_iff_eq.2 he)
  have h10 : k ≠ "isIntensityPercent" := fun he => hk _ (by simp) (beq_iff_eq.2 he)
  have h11 : k ≠ "hrType" := fun he => hk _ (by simp) (beq_iff_eq.2 he)
  unfold _build_step at h
  rw [applyIntensity_get_skip ex _ res k h h4 h5 h6 h7 h8 h9 h10 h11]
  exact applyTarget_get_skip ex _ k h1 h2 h3

theorem build_step_get_id (ex : Exercise) (a b c : Int) (ft : Option Int)
    (res : PyDict) (h : _build_step ex a b c ft = .ok res) :
    pyGet res ("id") = some (jInt a) :=
  (build_step_get_stable ex a b c ft res h ("id") (by decide)).trans
    (defaults_get_id a b _ c)

theorem build_step_get_sortNo (ex : Exercise) (a b c : Int) (ft : Option Int)
    (res : PyDict) (h : _build_step ex a b c ft = .ok res) :
    pyGet res ("sortNo") = some (jInt b) :=
  (build_step_get_stable ex a b c ft res h ("sortNo") (by decide)).trans
    (defaults_get_sortNo a b _ c)

theorem build_step_get_isGroup (ex : Exercise) (a b c : Int) (ft : Option Int)
    (res : PyDict) (h : _build_step ex a b c ft = .ok res) :
    pyGet res ("isGroup") = some (jBool false) :=
  (build_step_get_stable ex a b c ft res h ("isGroup") (by decide)).trans
    (defaults_get_isGroup a b _ c)

theorem build_step_get_groupId (ex : Exercise) (a b c : Int) (ft : Option Int)
    (res : PyDict) (h : _build_step ex a b c ft = .ok res) :
    pyGet res ("groupId") = some (jStr ("")) :=
  (build_step_get_stable ex a b c ft res h ("groupId") (by decide)).trans
    (defaults_get_groupId a b _ c)

theorem build_step_get_exerciseType (ex : Exercise) (a b c : Int) (ft : Option Int)
    (res : PyDict) (h : _build_step ex a b c ft = .ok res) :
    pyGet res ("exerciseType") = some (jInt (buildExType ex ft)) :=
  (build_step_get_stable ex a b c ft res h ("exerciseType") (by decide)).trans
    (defaults_get_exerciseType a b _ c)

/-- A forced interval type forces `exerciseType = 2` whatever the block's
own kind. -/
theorem buildExType_forced_interval (ex : Exercise) :
    buildExType ex (some ExerciseType.INTERVAL) = ExerciseType.INTERVAL := rfl

/-! Branch lemmas for the unit conversions of `_build_step`. -/

theorem applyTarget_duration_get (ex : Exercise) (d : PyDict)
    (hd : truthyQ ex.duration_minutes = true) :
    pyGet (applyTarget ex d) ("targetType") = some (jInt TargetType.DURATION)
      ∧ pyGet (applyTarget ex d) ("targetValue")
          = some (jInt (qTrunc (qMulInt (ex.duration_minutes.getD 0) 60)))
      ∧ pyGet (applyTarget ex d) ("targetDisplayUnit")
          = some (jInt TargetDisplayUnit.SECONDS) := by
  unfold applyTarget
  rw [if_pos hd]
  refine ⟨?_, ?_, ?_⟩
  · rw [pyGet_pySet_skip (by decide), pyGet_pySet_skip (by decide), pyGet_pySet_self]
  · rw [pyGet_pySet_skip (by decide), pyGet_pySet_self]
  · rw [pyGet_pySet_self]

theorem applyTarget_km_get (ex : Exercise) (d : PyDict)
    (hd : truthyQ ex.duration_minutes = false) (hk : truthyQ ex.distance_km = true) :
    pyGet (applyTarget ex d) ("targetType") = some (jInt TargetType.DISTANCE)
      ∧ pyGet (applyTarget ex d) ("targetValue")
          = some (jInt (qTrunc (qMulInt (ex.distance_km.getD 0) 100000)))
      ∧ pyGet (applyTarget ex d) ("targetDisplayUnit")
          = some (jInt TargetDisplayUnit.KILOMETERS) := by
  unfold applyTarget
  rw [if_neg (by simp [hd]), if_pos hk]
  refine ⟨?_, ?_, ?_⟩
  · rw [pyGet_pySet_skip (by decide), pyGet_pySet_skip (by decide), pyGet_pySet_self]
  · rw [pyGet_pySet_skip (by decide), pyGet_pySet_self]
  · rw [pyGet_pySet_self]

theorem applyTarget_m_get (ex : Exercise) (d : PyDict)
    (hd : truthyQ ex.duration_minutes = false) (hk : truthyQ ex.distance_km = false)
    (hm : truthyI ex.distance_m = true) :
    pyGet (applyTarget ex d) ("targetType") = some (jInt TargetType.DISTANCE)
      ∧ pyGet (applyTarget ex d) ("targetValue")
          = some (jInt ((ex.distance_m.getD 0) * 100))
      ∧ pyGet (applyTarget ex d) ("targetDisplayUnit")
          = some (jInt TargetDisplayUnit.METERS) := by
  unfold applyTarget
  rw [if_neg (by simp [hd]), if_neg (by simp [hk]), if_pos hm]
  refine ⟨?_, ?_, ?_⟩
  · rw [pyGet_pySet_skip (by decide), pyGet_pySet_skip (by decide), pyGet_pySet_self]
  · rw [pyGet_pySet_skip (by decide), pyGet_pySet_self]
  · rw [pyGet_pySet_self]

theorem applyIntensity_pace_get (ex : Exercise) (d res : PyDict)
    (hp : truthyS ex.pace_per_km = true) (low high : Int)
    (hparse : parse_pace (ex.pace_per_km.getD "") = some (low, high))
    (h : applyIntensity ex d = .ok res) :
    pyGet res ("intensityType") = some (jInt 3)
      ∧ pyGet res ("intensityValue") = some (jInt low)
      ∧ pyGet res ("intensityValueExtend") = some (jInt high)
      ∧ pyGet res ("intensityMultiplier") = some (jInt 1000) := by
  unfold applyIntensity at h
  rw [if_pos hp, hparse] at h
  injection h with hres
  subst hres
  refine ⟨?_, ?_, ?_, ?_⟩
  · rw [pyGet_pySet_skip (by decide), pyGet_pySet_skip (by decide),
      pyGet_pySet_skip (by decide), pyGet_pySet_skip (by decide),
      pyGet_pySet_skip (by decide), pyGet_pySet_skip (by decide), pyGet_pySet_self]
  · rw [pyGet_pySet_skip (by decide), pyGet_pySet_skip (by decide),
      pyGet_pySet_skip (by decide), pyGet_pySet_skip (by decide),
      pyGet_pySet_skip (by decide), pyGet_pySet_self]
  · rw [pyGet_pySet_skip (by decide), pyGet_pySet_skip (by decide),
      pyGet_pySet_skip (by decide), pyGet_pySet_skip (by decide), pyGet_pySet_self]
  · rw [pyGet_pySet_skip (by decide), pyGet_pySet_skip (by decide),
      pyGet_pySet_skip (by decide), pyGet_pySet_self]

theorem applyIntensity_hr_get (ex : Exercise) (d res : PyDict)
    (hp : truthyS ex.pace_per_km = false) (hh : truthyS ex.hr_bpm = true)
    (low high : Int)
    (hparse : parse_hr (ex.hr_bpm.getD "") = some (low, high))
    (h : applyIntensity ex d = .ok res) :
    pyGet res ("intensityType") = some (jInt 2)
      ∧ pyGet res ("intensityValue") = some (jInt low)
      ∧ pyGet res ("intensityValueExtend") = some (jInt high)
      ∧ pyGet res ("intensityMultiplier") = some (jInt 0) := by
  unfold applyIntensity at h
  rw [if_neg (by simp [hp]), if_pos hh, hparse] at h
  injection h with hres
  subst hres
  refine ⟨?_, ?_, ?_, ?_⟩
  · rw [pyGet_pySet_skip (by decide), pyGet_pySet_skip (by decide),
      pyGet_pySet_skip (by decide), pyGet_pySet_skip (by decide),
      pyGet_pySet_skip (by decide), pyGet_pySet_skip (by decide),
      pyGet_pySet_skip (by decide), pyGet_pySet_self]
  · rw [pyGet_pySet_skip (by decide), pyGet_pySet_skip (by decide),
      pyGet_pySet_skip (by decide), pyGet_pySet_skip (by decide),
      pyGet_pySet_skip (by decide), pyGet_pySet_skip (by decide), pyGet_pySet_self]
  · rw [pyGet_pySet_skip (by decide), pyGet_pySet_skip (by decide),
      pyGet_pySet_skip (by decide), pyGet_pySet_skip (by decide),
      pyGet_pySet_skip (by decide), pyGet_pySet_self]
  · rw [pyGet_pySet_skip (by decide), pyGet_pySet_skip (by decide),
      pyGet_pySet_skip (by decide), pyGet_pySet_skip (by decide), pyGet_pySet_self]

/-- Intensity keys of a `_build_step` result read through `applyIntensity`
(the target section never touches them). -/
theorem build_step_target_get (ex : Exercise) (a b c : Int) (ft : Option Int)
    (res : PyDict) (h : _build_step ex a b c ft = .ok res) (k : String)
    (h4 : k ≠ "intensityType") (h5 : k ≠ "intensityValue")
    (h6 : k ≠ "intensityValueExtend") (h7 : k ≠ "intensityMultiplier")
    (h8 : k ≠ "intensityDisplayUnit") (h9 : k ≠ "intensityCustom")
    (h10 : k ≠ "isIntensityPercent") (h11 : k ≠ "hrType") :
    pyGet res k
      = pyGet (applyTarget ex (_build_step_defaults a b (buildExType ex ft) c)) k := by
  unfold _build_step at h
  exact applyIntensity_get_skip ex _ res k h h4 h5 h6 h7 h8 h9 h10 h11

/-! Field lemmas about `_build_group`. -/

theorem build_group_get_id (a b r : Int) (rs : Option Int) :
    pyGet (_build_group a b r rs) ("id") = some (jInt a) := rfl

theorem build_group_get_sortNo (a b r : Int) (rs : Option Int) :
    pyGet (_build_group a b r rs) ("sortNo") = some (jInt b) := rfl

theorem build_group_get_isGroup (a b r : Int) (rs : Option Int) :
    pyGet (_build_group a b r rs) ("isGroup") = some (jBool true) := rfl

theorem build_group_get_sets (a b r : Int) (rs : Option Int) :
    pyGet (_build_group a b r rs) ("sets") = some (jInt r) := rfl

theorem build_group_get_restValue (a b r : Int) (rs : Option Int) :
    pyGet (_build_group a b r rs) ("restValue") = some (jInt (rs.getD 0)) := rfl

theorem build_group_get_restType (a b r : Int) (rs : Option Int) :
    pyGet (_build_group a b r rs) ("restType")
      = some (jInt (if truthyI rs then RestType.TIMED else RestType.NO_REST)) := rfl

/-- The structure a `repeats > 1` block contributes to the output: a
group record, then a work step sharing its `sortNo` and carrying its
`id` as `groupId` with a forced interval type, then a recovery step with
the same `groupId` exactly when `rest_seconds` is truthy. -/
theorem process_block_group_spec (sc : Int) (recs : List PyDict) (eid sno : Int)
    (ex : Exercise) (r : Int) (hrep : ex.repeats = some r) (hr1 : 1 < r)
    (st2 : List PyDict × Int × Int)
    (h : process_block sc (recs, eid, sno) ex = .ok st2) :
    ∃ group work rest,
      st2.1 = recs ++ [group, work] ++ rest
      ∧ pyGet group ("isGroup") = some (jBool true)
      ∧ pyGet group ("id") = some (jInt eid)
      ∧ pyGet group ("sortNo") = some (jInt sno)
      ∧ pyGet group ("sets") = some (jInt r)
      ∧ pyGet work ("isGroup") = some (jBool false)
      ∧ pyGet work ("groupId") = some (jInt eid)
      ∧ pyGet work ("exerciseType") = some (jInt ExerciseType.INTERVAL)
      ∧ pyGet work ("sortNo") = some (jInt sno)
      ∧ pyGet work ("id") = some (jInt (eid + 1))
      ∧ (truthyI ex.rest_seconds = true →
          ∃ recovery, rest = [recovery]
            ∧ pyGet recovery ("groupId") = some (jInt eid)
            ∧ pyGet recovery ("exerciseType") = some (jInt ExerciseType.RECOVERY)
            ∧ pyGet recovery ("targetType") = some (jInt TargetType.DURATION)
            ∧ pyGet recovery ("targetValue") = some (jInt (ex.rest_seconds.getD 0))
            ∧ pyGet recovery ("targetDisplayUnit") = some (jInt TargetDisplayUnit.SECONDS)
            ∧ pyGet recovery ("id") = some (jInt (eid + 2))
            ∧ pyGet recovery ("sortNo") = some (jInt (sno + 1)))
      ∧ (truthyI ex.rest_seconds = false → rest = []) := by
  have hcond : (truthyI ex.repeats && decide (ex.repeats.getD 0 > 1)) = true := by
    rw [hrep]
    simp only [truthyI, Option.getD_some, Bool.and_eq_true, decide_eq_true_eq]
    constructor
    · simpa using (by omega : r ≠ 0)
    · omega
  unfold process_block at h
  dsimp only at h
  rw [if_pos hcond] at h
  rw [hrep] at h
  simp only [Option.getD_some] at h
  cases hw : _build_step ex (eid + 1) sno sc (some ExerciseType.INTERVAL) with
  | error e =>
    rw [hw] at h
    simp [Bind.bind, Except.bind] at h
  | ok work0 =>
    rw [hw] at h
    simp only [Bind.bind, Except.bind] at h
    by_cases hrest : truthyI ex.rest_seconds
    · rw [if_pos hrest] at h
      injection h with hst
      subst hst
      refine ⟨_build_group eid sno r ex.rest_seconds, pySet work0 ("groupId") (jInt eid),
        [pySet (pySet (pySet (pySet
            (_build_step_defaults (eid + 1 + 1) (sno + 1) ExerciseType.RECOVERY sc)
            ("groupId") (jInt eid)) ("targetType") (jInt TargetType.DURATION))
            ("targetValue") (jInt (ex.rest_seconds.getD 0)))
            ("targetDisplayUnit") (jInt TargetDisplayUnit.SECONDS)],
        by simp, build_group_get_isGroup _ _ _ _,
        build_group_get_id _ _ _ _, build_group_get_sortNo _ _ _ _,
        build_group_get_sets _ _ _ _, ?_, pyGet_pySet_self _ _ _, ?_, ?_, ?_, ?_, ?_⟩
      · rw [pyGet_pySet_skip (by decide)]
        exact build_step_get_isGroup ex _ _ _ _ _ hw
      · rw [pyGet_pySet_skip (by decide)]
        exact build_step_get_exerciseType ex _ _ _ _ _ hw
      · rw [pyGet_pySet_skip (by decide)]
        exact build_step_get_sortNo ex _ _ _ _ _ hw
      · rw [pyGet_pySet_skip (by decide)]
        exact build_step_get_id ex _ _ _ _ _ hw
      · intro _
        refine ⟨_, rfl, ?_, ?_, ?_, ?_, ?_, ?_, ?_⟩
        · rw [pyGet_pySet_skip (by decide), pyGet_pySet_skip (by decide),
            pyGet_pySet_skip (by decide), pyGet_pySet_self]
        · rw [pyGet_pySet_skip (by decide), pyGet_pySet_skip (by decide),
            pyGet_pySet_skip (by decide), pyGet_pySet_skip (by decide)]
          exact defaults_get_exerciseType _ _ _ _
        · rw [pyGet_pySet_skip (by decide), pyGet_pySet_skip (by decide),
            pyGet_pySet_self]
        · rw [pyGet_pySet_skip (by decide), pyGet_pySet_self]
        · rw [pyGet_pySet_self]
        · rw [pyGet_pySet_skip (by decide), pyGet_pySet_skip (by decide),
            pyGet_pySet_skip (by decide), pyGet_pySet_skip (by decide),
            show (eid + 1 + 1 : Int) = eid + 2 from by ring]
          exact defaults_get_id _ _ _ _
        · rw [pyGet_pySet_skip (by decide), pyGet_pySet_skip (by decide),
            pyGet_pySet_skip (by decide), pyGet_pySet_skip (by decide)]
          exact defaults_get_sortNo _ _ _ _
      · intro hcontra
        rw [hrest] at hcontra
        exact absurd hcontra (by simp)
    · rw [if_neg hrest] at h
      injection h with hst
      subst hst
      refine ⟨_build_group eid sno r ex.rest_seconds, pySet work0 ("groupId") (jInt eid),
        [], by simp, build_group_get_isGroup _ _ _ _,
        build_group_get_id _ _ _ _, build_group_get_sortNo _ _ _ _,
        build_group_get_sets _ _ _ _, ?_, pyGet_pySet_self _ _ _, ?_, ?_, ?_, ?_, ?_⟩
      · rw [pyGet_pySet_skip (by decide)]
        exact build_step_get_isGroup ex _ _ _ _ _ hw
      · rw [pyGet_pySet_skip (by decide)]
        exact build_step_get_exerciseType ex _ _ _ _ _ hw
      · rw [pyGet_pySet_skip (by decide)]
        exact build_step_get_sortNo ex _ _ _ _ _ hw
      · rw [pyGet_pySet_skip (by decide)]
        exact build_step_get_id ex _ _ _ _ _ hw
      · intro hcontra
        rw [eq_false_of_ne_true hrest] at hcontra
        exact absurd hcontra (by simp)
      · intro _
        rfl

/-! The sequential-id invariant of the general encode loop. -/

/-- The `id` column expected of `n` records: `some 1, …, some n`. -/
def idList (n : Nat) : List (Option JVal) :=
  (List.range' 1 n).map (fun k => some (jInt (Int.ofNat k)))

theorem idList_concat (n : Nat) :
    idList (n + 1) = idList n ++ [some (jInt ((n : Int) + 1))] := by
  unfold idList
  rw [List.range'_1_concat, List.map_append]
  have he : Int.ofNat (1 + n) = (n : Int) + 1 := by
    rw [Int.ofNat_eq_natCast]
    omega
  rw [List.map_cons, List.map_nil, he]

/-- One loop iteration keeps ids sequential and the counter one past the
record count. -/
theorem process_block_ids (sc : Int) (recs : List PyDict) (eid sno : Int)
    (ex : Exercise) (st2 : List PyDict × Int × Int)
    (h : process_block sc (recs, eid, sno) ex = .ok st2)
    (hmap : recs.map (fun d => pyGet d ("id")) = idList recs.length)
    (heid : eid = (recs.length : Int) + 1) :
    st2.1.map (fun d => pyGet d ("id")) = idList st2.1.length
      ∧ st2.2.1 = (st2.1.length : Int) + 1 := by
  unfold process_block at h
  dsimp only at h
  split at h
  · -- repeats > 1: group, work, maybe recovery
    cases hw : _build_step ex (eid + 1) sno sc (some ExerciseType.INTERVAL) with
    | error e =>
      rw [hw] at h
      simp [Bind.bind, Except.bind] at h
    | ok work0 =>
      rw [hw] at h
      simp only [Bind.bind, Except.bind] at h
      by_cases hrest : truthyI ex.rest_seconds
      · rw [if_pos hrest] at h
        injection h with hst
        subst hst
        constructor
        · show (((recs ++ _) ++ _) ++ _).map _ = _
          simp only [List.map_append, List.map_cons, List.map_nil, List.length_append,
            List.length_cons, List.length_nil]
          rw [build_group_get_id, pyGet_pySet_skip (by decide),
            build_step_get_id ex _ _ _ _ _ hw, pyGet_pySet_skip (by decide),
            pyGet_pySet_skip (by decide), pyGet_pySet_skip (by decide),
            pyGet_pySet_skip (by decide), defaults_get_id, hmap]
          rw [show recs.length + 0 + 1 + (0 + 1) + (0 + 1)
            = recs.length + 1 + 1 + 1 from by omega]
          rw [idList_concat, idList_concat, idList_concat]
          subst heid
          rw [show ((recs.length + 1 : Nat) : Int) + 1
            = (recs.length : Int) + 1 + 1 from by omega]
          rw [show ((recs.length + 1 + 1 : Nat) : Int) + 1
            = (recs.length : Int) + 1 + 1 + 1 from by omega]
        · show eid + 1 + 1 + 1 = _
          simp only [List.length_append, List.length_cons, List.length_nil]
          subst heid
          push_cast
          ring
      · rw [if_neg hrest] at h
        injection h with hst
        subst hst
        constructor
        · show ((recs ++ _) ++ _).map _ = _
          simp only [List.map_append, List.map_cons, List.map_nil, List.length_append,
            List.length_cons, List.length_nil]
          rw [build_group_get_id, pyGet_pySet_skip (by decide),
            build_step_get_id ex _ _ _ _ _ hw, hmap]
          rw [show recs.length + 0 + 1 + (0 + 1) = recs.length + 1 + 1 from by omega]
          rw [idList_concat, idList_concat]
          subst heid
          rw [show ((recs.length + 1 : Nat) : Int) + 1
            = (recs.length : Int) + 1 + 1 from by omega]
        · show eid + 1 + 1 = _
          simp only [List.length_append, List.length_cons, List.length_nil]
          subst heid
          push_cast
          ring
  · -- single step
    cases hw : _build_step ex eid sno sc none with
    | error e =>
      rw [hw] at h
      simp [Bind.bind, Except.bind] at h
    | ok step =>
      rw [hw] at h
      simp only [Bind.bind, Except.bind] at h
      injection h with hst
      subst hst
      constructor
      · show (recs ++ _).map _ = _
        simp only [List.map_append, List.map_cons, List.map_nil, List.length_append,
          List.length_cons, List.length_nil]
        rw [build_step_get_id ex _ _ _ _ _ hw, hmap]
        rw [show recs.length + (0 + 1) = recs.length + 1 from by omega]
        rw [idList_concat]
        subst heid
        rfl
      · show eid + 1 = _
        simp only [List.length_append, List.length_cons, List.length_nil]
        subst heid
        push_cast
        ring

/-- The loop preserves the sequential-id invariant. -/
theorem encode_loop_ids (sc : Int) (exs : List Exercise)
    (st st2 : List PyDict × Int × Int) (h : encode_loop sc st exs = .ok st2)
    (hmap : st.1.map (fun d => pyGet d ("id")) = idList st.1.length)
    (heid : st.2.1 = (st.1.length : Int) + 1) :
    st2.1.map (fun d => pyGet d ("id")) = idList st2.1.length := by
  induction exs generalizing st with
  | nil =>
    unfold encode_loop at h
    injection h with hst
    subst hst
    exact hmap
  | cons ex rest ih =>
    unfold encode_loop at h
    cases hp : process_block sc st ex with
    | error e =>
      rw [hp] at h
      simp [Bind.bind, Except.bind] at h
    | ok st1 =>
      rw [hp] at h
      simp only [Bind.bind, Except.bind] at h
      obtain ⟨m1, m2⟩ := process_block_ids sc st.1 st.2.1 st.2.2 ex st1 hp hmap heid
      exact ih st1 h m1 m2

/-- The general path always reports a non-simple workout. -/
theorem to_coros_general_snd (parsed : List Exercise) (sc : Int)
    (out : List PyDict × Bool) (h : to_coros_general parsed sc = .ok out) :
    out.2 = false := by
  unfold to_coros_general at h
  cases hl : encode_loop sc ([], 1, 1) parsed with
  | error e =>
    rw [hl] at h
    simp [Bind.bind, Except.bind] at h
  | ok st =>
    rw [hl] at h
    simp only [Bind.bind, Except.bind] at h
    injection h with hst
    subst hst
    rfl

/-- The records of the general path are the loop's records. -/
theorem to_coros_general_recs (parsed : List Exercise) (sc : Int)
    (out : List PyDict × Bool) (h : to_coros_general parsed sc = .ok out) :
    ∃ st, encode_loop sc ([], 1, 1) parsed = .ok st ∧ out = (st.1, false) := by
  unfold to_coros_general at h
  cases hl : encode_loop sc ([], 1, 1) parsed with
  | error e =>
    rw [hl] at h
    simp [Bind.bind, Except.bind] at h
  | ok st =>
    rw [hl] at h
    simp only [Bind.bind, Except.bind] at h
    injection h with hst
    subst hst
    exact ⟨st, rfl, rfl⟩

/-- Inversion for `to_coros`: the sport resolved, validation passed, and
the output came from either the simple shortcut or the general loop. -/
theorem to_coros_inv (blocks : List Exercise) (sport : String)
    (out : List PyDict × Bool) (h : to_coros blocks sport = .ok out) :
    ∃ sc parsed, _resolve_sport sport = .ok sc ∧ ensureAll blocks = .ok parsed ∧
      ((∃ ex step, parsed = [ex]
          ∧ (ex.type != "interval" && !truthyI ex.repeats) = true
          ∧ _build_step ex 1 1 sc none = .ok step ∧ out = ([step], true))
        ∨ (to_coros_general parsed sc = .ok out ∧ out.2 = false
            ∧ ∀ ex2, parsed = [ex2]
              → (ex2.type != "interval" && !truthyI ex2.repeats) = false)) := by
  unfold to_coros at h
  cases hs : _resolve_sport sport with
  | error e =>
    rw [hs] at h
    simp [Bind.bind, Except.bind] at h
  | ok sc =>
    rw [hs] at h
    simp only [Bind.bind, Except.bind] at h
    cases hp : ensureAll blocks with
    | error e =>
      rw [hp] at h
      simp [Bind.bind, Except.bind] at h
    | ok parsed =>
      rw [hp] at h
      simp only [Bind.bind, Except.bind] at h
      refine ⟨sc, parsed, rfl, rfl, ?_⟩
      match parsed, h with
      | [], h =>
        exact Or.inr ⟨h, to_coros_general_snd _ _ _ h,
          fun ex2 habs => List.noConfusion habs⟩
      | [ex], h => ?_
      | ex :: b :: rest, h =>
        refine Or.inr ⟨h, to_coros_general_snd _ _ _ h, fun ex2 habs => ?_⟩
        injection habs with h1 h2
        exact List.noConfusion h2
      dsimp only at h
      by_cases hc : (ex.type != "interval" && !truthyI ex.repeats) = true
      · rw [if_pos hc] at h
        cases hw : _build_step ex 1 1 sc none with
        | error e =>
          rw [hw] at h
          simp [Bind.bind, Except.bind] at h
        | ok step =>
          rw [hw] at h
          simp only [Bind.bind, Except.bind] at h
          injection h with hout
          exact Or.inl ⟨ex, step, rfl, hc, hw, hout.symm⟩
      · rw [if_neg hc] at h
        refine Or.inr ⟨h, to_coros_general_snd _ _ _ h, fun ex2 he => ?_⟩
        injection he with h1 h2
        subst h1
        cases hb : (ex.type != "interval" && !truthyI ex.repeats) with
        | false => rfl
        | true => exact absurd hb hc

/-! Bridging lemmas: the kernel-computable rational helpers agree with
the field operations on `ℚ`. -/

theorem ratOfInt_eq (n : Int) : ratOfInt n = (n : Rat) := by
  unfold ratOfInt
  exact Rat.mkRat_one n

theorem qMulInt_eq (q : Rat) (n : Int) : qMulInt q n = q * (n : Rat) := by
  unfold qMulInt
  rw [Rat.mkRat_eq_divInt, Rat.divInt_eq_div]
  conv_rhs => rw [← Rat.num_div_den q, div_mul_eq_mul_div]
  push_cast
  ring

theorem qDivInt_eq (q : Rat) (n : Nat) : qDivInt q n = q / (n : Rat) := by
  unfold qDivInt
  rcases Nat.eq_zero_or_pos n with hn | hn
  · subst hn
    rw [Rat.mkRat_eq_divInt]
    norm_num
  · rw [Rat.mkRat_eq_divInt, Rat.divInt_eq_div]
    conv_rhs => rw [← Rat.num_div_den q, div_div]
    push_cast
    ring

theorem qTrunc_intCast (a : Int) : qTrunc ((a : Rat)) = a := by
  unfold qTrunc
  rw [Rat.num_intCast, Rat.den_intCast]
  exact Int.tdiv_one a

theorem roundHalfEven_intCast (a : Int) : roundHalfEven ((a : Rat)) = a := by
  unfold roundHalfEven
  rw [Rat.num_intCast, Rat.den_intCast]
  norm_num

/-- Rounding to two decimals is the identity on values with at most two
decimals. -/
theorem pyRound2_centi (c : Int) : pyRound2 (mkRat c 100) = mkRat c 100 := by
  unfold pyRound2
  have h1 : qMulInt (mkRat c 100) 100 = (c : Rat) := by
    rw [qMulInt_eq, Rat.mkRat_eq_divInt, Rat.divInt_eq_div]
    push_cast
    field_simp
  rw [h1, roundHalfEven_intCast]

/-! The distance round trip (claim C4): helper blocks and encode/decode
computations. -/

/-- A block carrying a plain meter distance. -/
def mkDistM (n : Int) : Exercise := { type := "warmup", distance_m := some n }

/-- A block carrying a kilometer distance. -/
def mkDistKm (q : Rat) : Exercise := { type := "warmup", distance_km := some q }

theorem validate_mkDistM (n : Int) (h : 0 < n) : validate (mkDistM n) = .ok () := by
  unfold validate mkDistM
  simp only [Option.any]
  norm_num
  rw [if_neg (by omega : ¬ n ≤ 0)]
  rfl

theorem validate_mkDistKm (q : Rat) (h : 0 < q) : validate (mkDistKm q) = .ok () := by
  unfold validate mkDistKm
  simp only [Option.any]
  norm_num
  rw [if_neg (not_le.2 h)]
  rfl

theorem to_coros_mkDistM (n : Int) (h : 0 < n) :
    to_coros [mkDistM n] ("running")
      = .ok ([applyTarget (mkDistM n) (_build_step_defaults 1 1 1 1)], true) := by
  unfold to_coros
  rw [show _resolve_sport ("running") = .ok 1 from rfl]
  simp only [Bind.bind, Except.bind]
  have hens : ensureAll [mkDistM n] = .ok [mkDistM n] := by
    show (do
      let e2 ← _ensure_exercise (mkDistM n)
      let rest2 ← ensureAll []
      pure (e2 :: rest2)) = .ok [mkDistM n]
    unfold _ensure_exercise
    rw [validate_mkDistM n h]
    rfl
  rw [hens]
  simp only [Bind.bind, Except.bind]
  rw [if_pos (by rfl)]
  have hbs : _build_step (mkDistM n) 1 1 1 none
      = .ok (applyTarget (mkDistM n) (_build_step_defaults 1 1 1 1)) := by
    unfold _build_step applyIntensity
    rfl
  rw [hbs]
  rfl

theorem to_coros_mkDistKm (q : Rat) (h : 0 < q) :
    to_coros [mkDistKm q] ("running")
      = .ok ([applyTarget (mkDistKm q) (_build_step_defaults 1 1 1 1)], true) := by
  unfold to_coros
  rw [show _resolve_sport ("running") = .ok 1 from rfl]
  simp only [Bind.bind, Except.bind]
  have hens : ensureAll [mkDistKm q] = .ok [mkDistKm q] := by
    show (do
      let e2 ← _ensure_exercise (mkDistKm q)
      let rest2 ← ensureAll []
      pure (e2 :: rest2)) = .ok [mkDistKm q]
    unfold _ensure_exercise
    rw [validate_mkDistKm q h]
    rfl
  rw [hens]
  simp only [Bind.bind, Except.bind]
  rw [if_pos (by rfl)]
  have hbs : _build_step (mkDistKm q) 1 1 1 none
      = .ok (applyTarget (mkDistKm q) (_build_step_defaults 1 1 1 1)) := by
    unfold _build_step applyIntensity
    rfl
  rw [hbs]
  rfl

theorem from_coros_mkDistM_small (n : Int) (h0 : 0 < n) (h1 : n < 1000) :
    from_coros [applyTarget (mkDistM n) (_build_step_defaults 1 1 1 1)]
      = .ok [[("type", jStr ("warmup")), ("distance_m", jInt n)]] := by
  set step := applyTarget (mkDistM n) (_build_step_defaults 1 1 1 1) with hstep
  have hmT : truthyI (mkDistM n).distance_m = true := by
    simp only [mkDistM, truthyI]
    simpa using (by omega : n ≠ 0)
  obtain ⟨hTT, hTV, hTU⟩ := applyTarget_m_get (mkDistM n) (_build_step_defaults 1 1 1 1) rfl rfl hmT
  rw [show (mkDistM n).distance_m.getD 0 = n from rfl] at hTV
  have hET : pyGet step ("exerciseType") = some (jInt 1) := by
    rw [hstep, applyTarget_get_skip _ _ _ (by decide) (by decide) (by decide)]
    exact defaults_get_exerciseType 1 1 1 1
  have hIG : pyGet step ("isGroup") = some (jBool false) := by
    rw [hstep, applyTarget_get_skip _ _ _ (by decide) (by decide) (by decide)]
    exact defaults_get_isGroup 1 1 1 1
  have hGI : pyGet step ("groupId") = some (jStr ("")) := by
    rw [hstep, applyTarget_get_skip _ _ _ (by decide) (by decide) (by decide)]
    exact defaults_get_groupId 1 1 1 1
  have hIT : pyGet step ("intensityType") = some (jInt 0) := by
    rw [hstep, applyTarget_get_skip _ _ _ (by decide) (by decide) (by decide)]
    rfl
  have hvt : vTruthy (jInt (n * 100)) = true := by
    simp only [vTruthy]
    simpa using (by omega : n * 100 ≠ 0)
  have hmet : qDivInt (mkRat (n * 100) 1) 100 = ((n : Int) : Rat) := by
    rw [qDivInt_eq, Rat.mkRat_one]
    push_cast
    field_simp
  have hge : ¬ (mkRat 1000 1 ≤ ((n : Int) : Rat)) := by
    rw [Rat.mkRat_one]
    intro hc
    have : (1000 : Int) ≤ n := by exact_mod_cast hc
    omega
  have hds : decode_step [] step
      = .ok [("type", jStr ("warmup")), ("distance_m", jInt n)] := by
    unfold decode_step
    rw [hET, hTT, hTV, hIT, hGI]
    simp only [Option.getD_some]
    rw [show decodeTypeName (some (jInt 1)) = "warmup" from rfl]
    rw [show pyEqIntOpt (some (jInt TargetType.DISTANCE)) TargetType.DURATION = false from rfl]
    rw [show pyEqIntOpt (some (jInt TargetType.DISTANCE)) TargetType.DISTANCE = true from rfl]
    rw [show pyEqInt (jInt 0) 3 = false from rfl]
    rw [show pyEqInt (jInt 0) 2 = false from rfl]
    simp only [Bool.false_and, Bool.true_and, if_false, hvt, if_true]
    rw [show (jInt (n * 100)).asNum = some (mkRat (n * 100) 1) from rfl]
    simp only [hmet]
    rw [if_neg hge]
    rw [qTrunc_intCast n]
    rfl
  unfold from_coros from_coros_go
  rw [hIG]
  rw [show pyTruthy (some (jBool false)) = false from rfl]
  simp only [Bool.false_eq_true, if_false]
  rw [hds]
  simp only [Bind.bind, Except.bind]
  rfl

theorem from_coros_mkDistKm_large (c : Int) (hc : 100 ≤ c) :
    from_coros [applyTarget (mkDistKm (mkRat c 100)) (_build_step_defaults 1 1 1 1)]
      = .ok [[("type", jStr ("warmup")), ("distance_km", jRat (mkRat c 100))]] := by
  have hcne : mkRat c 100 ≠ 0 := by
    rw [Rat.mkRat_eq_divInt, Rat.divInt_eq_div]
    have : ((c : Rat)) ≠ 0 := by
      exact_mod_cast (by omega : c ≠ 0)
    positivity
  set step := applyTarget (mkDistKm (mkRat c 100)) (_build_step_defaults 1 1 1 1) with hstep
  have hkT : truthyQ (mkDistKm (mkRat c 100)).distance_km = true := by
    simp only [mkDistKm, truthyQ]
    simpa using Rat.num_ne_zero.2 hcne
  obtain ⟨hTT, hTV, hTU⟩ :=
    applyTarget_km_get (mkDistKm (mkRat c 100)) (_build_step_defaults 1 1 1 1) rfl hkT
  rw [show (mkDistKm (mkRat c 100)).distance_km.getD 0 = mkRat c 100 from rfl] at hTV
  have hqv : qTrunc (qMulInt (mkRat c 100) 100000) = c * 1000 := by
    have he : (mkRat c 100) * ((100000 : Int) : Rat) = ((c * 1000 : Int) : Rat) := by
      rw [Rat.mkRat_eq_divInt, Rat.divInt_eq_div]
      push_cast
      field_simp
      ring
    rw [qMulInt_eq, he, qTrunc_intCast]
  rw [hqv] at hTV
  have hET : pyGet step ("exerciseType") = some (jInt 1) := by
    rw [hstep, applyTarget_get_skip _ _ _ (by decide) (by decide) (by decide)]
    exact defaults_get_exerciseType 1 1 1 1
  have hIG : pyGet step ("isGroup") = some (jBool false) := by
    rw [hstep, applyTarget_get_skip _ _ _ (by decide) (by decide) (by decide)]
    exact defaults_get_isGroup 1 1 1 1
  have hGI : pyGet step ("groupId") = some (jStr ("")) := by
    rw [hstep, applyTarget_get_skip _ _ _ (by decide) (by decide) (by decide)]
    exact defaults_get_groupId 1 1 1 1
  have hIT : pyGet step ("intensityType") = some (jInt 0) := by
    rw [hstep, applyTarget_get_skip _ _ _ (by decide) (by decide) (by decide)]
    rfl
  have hvt : vTruthy (jInt (c * 1000)) = true := by
    simp only [vTruthy]
    simpa using (by omega : c * 1000 ≠ 0)
  have hmet : qDivInt (mkRat (c * 1000) 1) 100 = ((c * 10 : Int) : Rat) := by
    rw [qDivInt_eq, Rat.mkRat_one]
    push_cast
    field_simp
    ring
  have hge : mkRat 1000 1 ≤ ((c * 10 : Int) : Rat) := by
    rw [Rat.mkRat_one]
    exact_mod_cast (by omega : (1000 : Int) ≤ c * 10)
  have hdk : qDivInt (((c * 10 : Int)) : Rat) 1000 = mkRat c 100 := by
    rw [qDivInt_eq, Rat.mkRat_eq_divInt, Rat.divInt_eq_div]
    push_cast
    rw [div_eq_div_iff (by norm_num) (by norm_num)]
    ring
  have hds : decode_step [] step
      = .ok [("type", jStr ("warmup")), ("distance_km", jRat (mkRat c 100))] := by
    unfold decode_step
    rw [hET, hTT, hTV, hIT, hGI]
    simp only [Option.getD_some]
    rw [show decodeTypeName (some (jInt 1)) = "warmup" from rfl]
    rw [show pyEqIntOpt (some (jInt TargetType.DISTANCE)) TargetType.DURATION = false from rfl]
    rw [show pyEqIntOpt (some (jInt TargetType.DISTANCE)) TargetType.DISTANCE = true from rfl]
    rw [show pyEqInt (jInt 0) 3 = false from rfl]
    rw [show pyEqInt (jInt 0) 2 = false from rfl]
    simp only [Bool.false_and, Bool.true_and, if_false, hvt, if_true]
    rw [show (jInt (c * 1000)).asNum = some (mkRat (c * 1000) 1) from rfl]
    simp only [hmet]
    rw [if_pos hge]
    rw [hdk, pyRound2_centi]
    rfl
  unfold from_coros from_coros_go
  rw [hIG]
  rw [show pyTruthy (some (jBool false)) = false from rfl]
  simp only [Bool.false_eq_true, if_false]
  rw [hds]
  simp only [Bind.bind, Except.bind]
  rfl

/-! Decimal digit machinery for the parse/format round-trip claims. -/

theorem natToCharsAux_congr (n : Nat) :
    ∀ f g, n < f → n < g → natToCharsAux f n = natToCharsAux g n := by
  induction n using Nat.strong_induction_on with
  | _ n ih =>
    intro f g hf hg
    cases f with
    | zero => omega
    | succ f =>
      cases g with
      | zero => omega
      | succ g =>
        show natToCharsAux (f + 1) n = natToCharsAux (g + 1) n
        unfold natToCharsAux
        by_cases h10 : n < 10
        · rw [if_pos h10, if_pos h10]
        · rw [if_neg h10, if_neg h10]
          have hdiv : n / 10 < n := Nat.div_lt_self (by omega) (by omega)
          rw [ih (n / 10) hdiv f g (by omega) (by omega)]

theorem natToChars_eq (n : Nat) :
    natToChars n
      = if n < 10 then [digitChar n] else natToChars (n / 10) ++ [digitChar (n % 10)] := by
  show natToCharsAux (n + 1) n = _
  unfold natToCharsAux
  by_cases h10 : n < 10
  · rw [if_pos h10, if_pos h10]
  · rw [if_neg h10, if_neg h10]
    have hdiv : n / 10 < n := Nat.div_lt_self (by omega) (by omega)
    rw [natToCharsAux_congr (n / 10) n (n / 10 + 1) (by omega) (by omega)]
    rfl

theorem isDigitChar_digitChar (d : Nat) (h : d < 10) : isDigitChar (digitChar d) = true := by
  interval_cases d <;> decide

theorem digitChar_toNat (d : Nat) (h : d < 10) : (digitChar d).toNat = 48 + d := by
  interval_cases d <;> decide

theorem isDigitChar_facts (c : Char) (h : isDigitChar c = true) :
    c ≠ ':' ∧ c ≠ '-' ∧ c ≠ '+' ∧ pyIsSpace c = false := by
  refine ⟨?_, ?_, ?_, ?_⟩
  · intro he
    subst he
    simp [isDigitChar] at h
  · intro he
    subst he
    simp [isDigitChar] at h
  · intro he
    subst he
    simp [isDigitChar] at h
  · unfold pyIsSpace
    have h1 : c ≠ ' ' := by intro he; subst he; simp [isDigitChar] at h
    have h2 : c ≠ '\t' := by intro he; subst he; simp [isDigitChar] at h
    have h3 : c ≠ '\n' := by intro he; subst he; simp [isDigitChar] at h
    have h4 : c ≠ '\r' := by intro he; subst he; simp [isDigitChar] at h
    have h5 : c ≠ '\x0b' := by intro he; subst he; simp [isDigitChar] at h
    have h6 : c ≠ '\x0c' := by intro he; subst he; simp [isDigitChar] at h
    simp [h1, h2, h3, h4, h5, h6]

theorem dropWhile_eq_self_of (l : List Char) (h : ∀ c ∈ l, pyIsSpace c = false) :
    l.dropWhile pyIsSpace = l := by
  cases l with
  | nil => rfl
  | cons c t =>
    rw [List.dropWhile_cons, h c (by simp)]
    simp

theorem stripChars_eq_self (l : List Char) (h : ∀ c ∈ l, pyIsSpace c = false) :
    stripChars l = l := by
  unfold stripChars
  rw [dropWhile_eq_self_of l h,
    dropWhile_eq_self_of l.reverse (fun c hc => h c (List.mem_reverse.1 hc)),
    List.reverse_reverse]

theorem digitsVal_append_one (l : List Char) (c : Char) :
    digitsVal (l ++ [c]) = digitsVal l * 10 + (c.toNat - 48) := by
  unfold digitsVal
  rw [List.foldl_append]
  rfl

theorem natToChars_spec (n : Nat) :
    natToChars n ≠ [] ∧ (natToChars n).all isDigitChar = true
      ∧ digitsVal (natToChars n) = n := by
  induction n using Nat.strong_induction_on with
  | _ n ih =>
    rw [natToChars_eq]
    by_cases h10 : n < 10
    · rw [if_pos h10]
      refine ⟨by simp, ?_, ?_⟩
      · simp only [List.all_cons, List.all_nil, Bool.and_true]
        exact isDigitChar_digitChar n h10
      · unfold digitsVal
        simp only [List.foldl_cons, List.foldl_nil]
        rw [digitChar_toNat n h10]
        omega
    · rw [if_neg h10]
      have hdiv : n / 10 < n := Nat.div_lt_self (by omega) (by omega)
      obtain ⟨h1, h2, h3⟩ := ih (n / 10) hdiv
      have hm10 : n % 10 < 10 := Nat.mod_lt _ (by omega)
      refine ⟨by simp, ?_, ?_⟩
      · rw [List.all_append, h2]
        simp only [List.all_cons, List.all_nil, Bool.and_true, Bool.true_and]
        exact isDigitChar_digitChar _ hm10
      · rw [digitsVal_append_one, h3, digitChar_toNat _ hm10]
        omega

theorem digitsToNat_natToChars (n : Nat) : digitsToNat (natToChars n) = some n := by
  obtain ⟨h1, h2, h3⟩ := natToChars_spec n
  unfold digitsToNat
  have hne : (natToChars n).isEmpty = false := by
    cases hnc : natToChars n with
    | nil => exact absurd hnc h1
    | cons a b => rfl
  rw [hne, h2, h3]
  rfl

theorem natToChars_no_space (n : Nat) : ∀ c ∈ natToChars n, pyIsSpace c = false := by
  intro c hc
  obtain ⟨-, h2, -⟩ := natToChars_spec n
  exact (isDigitChar_facts c (List.all_eq_true.1 h2 c hc)).2.2.2

theorem natToChars_head_digit (n : Nat) :
    ∃ c t, natToChars n = c :: t ∧ isDigitChar c = true := by
  obtain ⟨h1, h2, -⟩ := natToChars_spec n
  cases hnc : natToChars n with
  | nil => exact absurd hnc h1
  | cons c t =>
    refine ⟨c, t, rfl, ?_⟩
    rw [hnc] at h2
    exact (List.all_eq_true.1 h2 c (by simp))

theorem pyIntChars_natToChars (n : Nat) :
    pyIntChars (natToChars n) = some ((n : Int)) := by
  obtain ⟨c, t, hct, hcd⟩ := natToChars_head_digit n
  obtain ⟨-, hcm, hcp, -⟩ := isDigitChar_facts c hcd
  unfold pyIntChars
  rw [stripChars_eq_self _ (natToChars_no_space n)]
  rw [hct]
  rw [if_neg (by simp [List.head?_cons]; exact hcm), if_neg (by simp [List.head?_cons]; exact hcp)]
  rw [← hct, digitsToNat_natToChars]
  rfl

/-- Zero-padded two-digit rendering (the shape `f-string 02d` produces for
`0 ≤ s < 100`). -/
def twoDigits (s : Nat) : List Char :=
  if s < 10 then '0' :: natToChars s else natToChars s

theorem digitsVal_cons_zero (l : List Char) : digitsVal ('0' :: l) = digitsVal l := by
  unfold digitsVal
  rw [List.foldl_cons]
  rw [show 0 * 10 + ('0'.toNat - 48) = 0 from by decide]

theorem twoDigits_spec (s : Nat) :
    twoDigits s ≠ [] ∧ (twoDigits s).all isDigitChar = true
      ∧ digitsVal (twoDigits s) = s := by
  obtain ⟨h1, h2, h3⟩ := natToChars_spec s
  unfold twoDigits
  by_cases h10 : s < 10
  · rw [if_pos h10]
    refine ⟨by simp, ?_, ?_⟩
    · simp only [List.all_cons, h2, Bool.and_true]
      decide
    · rw [digitsVal_cons_zero, h3]
  · rw [if_neg h10]
    exact ⟨h1, h2, h3⟩

theorem twoDigits_no_space (s : Nat) : ∀ c ∈ twoDigits s, pyIsSpace c = false := by
  intro c hc
  obtain ⟨-, h2, -⟩ := twoDigits_spec s
  exact (isDigitChar_facts c (List.all_eq_true.1 h2 c hc)).2.2.2

theorem pyIntChars_twoDigits (s : Nat) :
    pyIntChars (twoDigits s) = some ((s : Int)) := by
  obtain ⟨h1, h2, h3⟩ := twoDigits_spec s
  have hd : ∃ c t, twoDigits s = c :: t ∧ isDigitChar c = true := by
    cases hnc : twoDigits s with
    | nil => exact absurd hnc h1
    | cons c t =>
      refine ⟨c, t, rfl, ?_⟩
      rw [hnc] at h2
      exact (List.all_eq_true.1 h2 c (by simp))
  obtain ⟨c, t, hct, hcd⟩ := hd
  obtain ⟨-, hcm, hcp, -⟩ := isDigitChar_facts c hcd
  unfold pyIntChars
  rw [stripChars_eq_self _ (twoDigits_no_space s)]
  rw [hct]
  rw [if_neg (by simp [List.head?_cons]; exact hcm), if_neg (by simp [List.head?_cons]; exact hcp)]
  rw [← hct]
  unfold digitsToNat
  have hne : (twoDigits s).isEmpty = false := by
    rw [hct]
    rfl
  rw [hne, h2, h3]
  rfl

/-! Split lemmas and the canonical pace token. -/

theorem splitChars_not_mem (sep : Char) (l : List Char) (h : sep ∉ l) :
    splitChars sep l = [l] := by
  induction l with
  | nil => rfl
  | cons c t ih =>
    unfold splitChars
    have hc : ¬ (c = sep) := fun he => h (by simp [he])
    rw [if_neg hc, ih (fun hm => h (List.mem_cons_of_mem _ hm))]

theorem splitChars_append (sep : Char) (xs ys : List Char) (h : sep ∉ xs) :
    splitChars sep (xs ++ sep :: ys) = xs :: splitChars sep ys := by
  induction xs with
  | nil =>
    show splitChars sep (sep :: ys) = [] :: splitChars sep ys
    simp only [splitChars]
    simp
  | cons c t ih =>
    have hc : ¬ (c = sep) := fun he => h (by simp [he])
    show splitChars sep (c :: (t ++ sep :: ys)) = (c :: t) :: splitChars sep ys
    simp only [splitChars]
    rw [if_neg hc, ih (fun hm => h (List.mem_cons_of_mem _ hm))]

/-- The canonical `'M:SS'` token for minutes `m`, seconds `s`. -/
def paceTok (m s : Nat) : List Char := natToChars m ++ ':' :: twoDigits s

theorem natToChars_no_colon_hyphen (n : Nat) :
    ∀ c ∈ natToChars n, c ≠ ':' ∧ c ≠ '-' := by
  intro c hc
  obtain ⟨-, h2, -⟩ := natToChars_spec n
  obtain ⟨f1, f2, -, -⟩ := isDigitChar_facts c (List.all_eq_true.1 h2 c hc)
  exact ⟨f1, f2⟩

theorem twoDigits_no_colon_hyphen (s : Nat) :
    ∀ c ∈ twoDigits s, c ≠ ':' ∧ c ≠ '-' := by
  intro c hc
  obtain ⟨-, h2, -⟩ := twoDigits_spec s
  obtain ⟨f1, f2, -, -⟩ := isDigitChar_facts c (List.all_eq_true.1 h2 c hc)
  exact ⟨f1, f2⟩

theorem paceTok_no_hyphen (m s : Nat) : '-' ∉ paceTok m s := by
  intro hm
  unfold paceTok at hm
  rcases List.mem_append.1 hm with hm | hm
  · exact (natToChars_no_colon_hyphen m _ hm).2 rfl
  · rcases List.mem_cons.1 hm with hm | hm
    · exact absurd hm.symm (by decide)
    · exact (twoDigits_no_colon_hyphen s _ hm).2 rfl

theorem paceTok_no_space (m s : Nat) : ∀ c ∈ paceTok m s, pyIsSpace c = false := by
  intro c hc
  unfold paceTok at hc
  rcases List.mem_append.1 hc with hc | hc
  · exact natToChars_no_space m c hc
  · rcases List.mem_cons.1 hc with hc | hc
    · rw [hc]
      decide
    · exact twoDigits_no_space s c hc

theorem pace_str_to_ms_tok (m s : Nat) :
    _pace_str_to_ms (paceTok m s)
      = some (((m : Int) * 60 + (s : Int)) * 1000) := by
  unfold _pace_str_to_ms paceTok
  rw [splitChars_append ':' _ _ (fun hm => (natToChars_no_colon_hyphen m _ hm).1 rfl)]
  rw [splitChars_not_mem ':' _ (fun hm => (twoDigits_no_colon_hyphen s _ hm).1 rfl)]
  simp only [pyIntChars_natToChars, pyIntChars_twoDigits, Option.bind_eq_bind,
    Option.bind_some]
  rfl

theorem parse_pace_tok (m s : Nat) :
    parse_pace (String.mk (paceTok m s))
      = some (((m : Int) * 60 + (s : Int)) * 1000,
          ((m : Int) * 60 + (s : Int)) * 1000) := by
  unfold parse_pace
  rw [show (String.mk (paceTok m s)).data = paceTok m s from rfl]
  rw [splitChars_not_mem '-' _ (paceTok_no_hyphen m s)]
  simp only [List.mapM_cons, List.mapM_nil]
  rw [stripChars_eq_self _ (paceTok_no_space m s), pace_str_to_ms_tok]
  rfl

theorem parse_pace_tok_pair (m1 s1 m2 s2 : Nat) :
    parse_pace (String.mk (paceTok m1 s1 ++ '-' :: paceTok m2 s2))
      = some (((m1 : Int) * 60 + (s1 : Int)) * 1000,
          ((m2 : Int) * 60 + (s2 : Int)) * 1000) := by
  unfold parse_pace
  rw [show (String.mk (paceTok m1 s1 ++ '-' :: paceTok m2 s2)).data
    = paceTok m1 s1 ++ '-' :: paceTok m2 s2 from rfl]
  rw [splitChars_append '-' _ _ (paceTok_no_hyphen m1 s1)]
  rw [splitChars_not_mem '-' _ (paceTok_no_hyphen m2 s2)]
  simp only [List.mapM_cons, List.mapM_nil]
  rw [stripChars_eq_self _ (paceTok_no_space m1 s1), pace_str_to_ms_tok]
  rw [stripChars_eq_self _ (paceTok_no_space m2 s2), pace_str_to_ms_tok]
  rfl

theorem parse_hr_tok (n : Nat) :
    parse_hr (String.mk (natToChars n)) = some (Int.ofNat n, (n : Int)) := by
  unfold parse_hr
  rw [show (String.mk (natToChars n)).data = natToChars n from rfl]
  rw [splitChars_not_mem '-' _ (fun hm => (natToChars_no_colon_hyphen n _ hm).2 rfl)]
  simp only [List.mapM_cons, List.mapM_nil]
  rw [stripChars_eq_self _ (natToChars_no_space n), pyIntChars_natToChars]
  rfl

theorem parse_hr_tok_pair (a b : Nat) :
    parse_hr (String.mk (natToChars a ++ '-' :: natToChars b))
      = some (Int.ofNat a, (b : Int)) := by
  unfold parse_hr
  rw [show (String.mk (natToChars a ++ '-' :: natToChars b)).data
    = natToChars a ++ '-' :: natToChars b from rfl]
  rw [splitChars_append '-' _ _ (fun hm => (natToChars_no_colon_hyphen a _ hm).2 rfl)]
  rw [splitChars_not_mem '-' _ (fun hm => (natToChars_no_colon_hyphen b _ hm).2 rfl)]
  simp only [List.mapM_cons, List.mapM_nil]
  rw [stripChars_eq_self _ (natToChars_no_space a), pyIntChars_natToChars]
  rw [stripChars_eq_self _ (natToChars_no_space b), pyIntChars_natToChars]
  rfl

theorem parse_hr_tok_triple (a b c : Nat) :
    parse_hr (String.mk (natToChars a ++ '-' :: (natToChars b ++ '-' :: natToChars c)))
      = some (Int.ofNat a, (b : Int)) := by
  unfold parse_hr
  rw [show (String.mk (natToChars a ++ '-' :: (natToChars b ++ '-' :: natToChars c))).data
    = natToChars a ++ '-' :: (natToChars b ++ '-' :: natToChars c) from rfl]
  rw [splitChars_append '-' _ _ (fun hm => (natToChars_no_colon_hyphen a _ hm).2 rfl)]
  rw [splitChars_append '-' _ _ (fun hm => (natToChars_no_colon_hyphen b _ hm).2 rfl)]
  rw [splitChars_not_mem '-' _ (fun hm => (natToChars_no_colon_hyphen c _ hm).2 rfl)]
  simp only [List.mapM_cons, List.mapM_nil]
  rw [stripChars_eq_self _ (natToChars_no_space a), pyIntChars_natToChars]
  rw [stripChars_eq_self _ (natToChars_no_space b), pyIntChars_natToChars]
  rw [stripChars_eq_self _ (natToChars_no_space c), pyIntChars_natToChars]
  rfl

/-! The format side of the pace round trip. -/

theorem format_pace_tok (m s : Nat) (hs : s < 60) :
    _format_pace_value
        (qDivInt (ratOfInt (((m : Int) * 60 + (s : Int)) * 1000)) 1000)
      = String.mk (paceTok m s) := by
  have hval : qDivInt (ratOfInt (((m : Int) * 60 + (s : Int)) * 1000)) 1000
      = (((m : Int) * 60 + (s : Int) : Int) : Rat) := by
    rw [qDivInt_eq, ratOfInt_eq]
    push_cast
    field_simp
  unfold _format_pace_value
  rw [hval, qTrunc_intCast]
  have hs0 : (0 : Int) ≤ (s : Int) := by positivity
  have hs60 : (s : Int) < 60 := by exact_mod_cast hs
  have h60 : ((m : Int) * 60 + (s : Int)).fdiv 60 = (m : Int) := by
    rw [Int.fdiv_eq_ediv _ (by norm_num)]
    rw [show (m : Int) * 60 + (s : Int) = (s : Int) + (m : Int) * 60 from by ring]
    rw [Int.add_mul_ediv_right _ _ (by norm_num : (60 : Int) ≠ 0)]
    rw [Int.ediv_eq_zero_of_lt hs0 hs60]
    ring
  have hmod : ((m : Int) * 60 + (s : Int)).emod 60 = (s : Int) := by
    rw [show (m : Int) * 60 + (s : Int) = (s : Int) + (m : Int) * 60 from by ring]
    rw [show ((s : Int) + (m : Int) * 60).emod 60
      = ((s : Int) + (m : Int) * 60) % 60 from rfl]
    rw [Int.add_mul_emod_self]
    exact Int.emod_eq_of_lt hs0 hs60
  show String.mk (intToChars (((m : Int) * 60 + (s : Int)).fdiv 60)
    ++ ':' :: pad2Chars (((m : Int) * 60 + (s : Int)).emod 60)) = String.mk (paceTok m s)
  rw [h60, hmod]
  have hi : intToChars ((m : Int)) = natToChars m := by
    unfold intToChars
    rw [if_neg (by omega)]
    rw [Int.toNat_ofNat]
  have hp : pad2Chars ((s : Int)) = twoDigits s := by
    unfold pad2Chars twoDigits intToChars
    by_cases h10 : s < 10
    · have hc1 : (decide ((0 : Int) ≤ (s : Int)) && decide ((s : Int) < 10)) = true := by
        simp only [Bool.and_eq_true, decide_eq_true_eq]
        exact ⟨by positivity, by exact_mod_cast h10⟩
      rw [if_pos hc1, Int.toNat_ofNat, if_pos h10]
    · have hc1 : ¬ ((decide ((0 : Int) ≤ (s : Int)) && decide ((s : Int) < 10)) = true) := by
        simp only [Bool.and_eq_true, decide_eq_true_eq, not_and]
        intro h2
        omega
      rw [if_neg hc1, if_neg (by omega), Int.toNat_ofNat, if_neg h10]
  rw [hi, hp]
  rfl

/-! Inversion helpers for the claim proofs. -/

/-- Validation never rewrites blocks: `ensureAll` returns its input. -/
theorem ensureAll_id (bs parsed : List Exercise) (h : ensureAll bs = .ok parsed) :
    parsed = bs := by
  induction bs generalizing parsed with
  | nil =>
    unfold ensureAll at h
    injection h with h1
    exact h1.symm
  | cons e rest ih =>
    unfold ensureAll at h
    cases hv : validate e with
    | error msg =>
      rw [show _ensure_exercise e = .error msg from by
        unfold _ensure_exercise
        rw [hv]
        rfl] at h
      simp [Bind.bind, Except.bind] at h
    | ok u =>
      rw [show _ensure_exercise e = .ok e from by
        unfold _ensure_exercise
        rw [hv]
        rfl] at h
      simp only [Bind.bind, Except.bind] at h
      cases hr : ensureAll rest with
      | error msg =>
        rw [hr] at h
        simp [Bind.bind, Except.bind] at h
      | ok rest2 =>
        rw [hr] at h
        simp only [Bind.bind, Except.bind] at h
        injection h with h1
        rw [← h1, ih rest2 hr]

/-- A block that does not take the repeat branch contributes exactly one
step record and bumps both counters by one. -/
theorem process_block_nonrepeat (sc : Int) (recs : List PyDict) (eid sno : Int)
    (ex : Exercise)
    (hcond : (truthyI ex.repeats && decide (ex.repeats.getD 0 > 1)) = false)
    (st2 : List PyDict × Int × Int)
    (h : process_block sc (recs, eid, sno) ex = .ok st2) :
    ∃ step, _build_step ex eid sno sc none = .ok step
      ∧ st2 = (recs ++ [step], eid + 1, sno + 1) := by
  unfold process_block at h
  dsimp only at h
  rw [if_neg (by simp [hcond])] at h
  cases hw : _build_step ex eid sno sc none with
  | error e =>
    rw [hw] at h
    simp [Bind.bind, Except.bind] at h
  | ok step =>
    rw [hw] at h
    simp only [Bind.bind, Except.bind] at h
    injection h with h1
    exact ⟨step, rfl, h1.symm⟩

/-! Concrete blocks used to instantiate the claim theorems. -/

/-- An interval block with `repeats = 6` and `rest_seconds = 90`. -/
def wRepeatBlock : Exercise :=
  { type := "interval", distance_m := some 800, repeats := some 6,
    rest_seconds := some 90 }

/-- The loop state after processing `wRepeatBlock` once. -/
def wRepeatState : List PyDict × Int × Int :=
  ((process_block 1 ([], 1, 1) wRepeatBlock).toOption).getD ([], 0, 0)

/-- The encoding of the single-block plan `[wRepeatBlock]`. -/
def wEnc : List PyDict × Bool :=
  ((to_coros [wRepeatBlock] ("running")).toOption).getD ([], false)

/-- A single non-interval block without repeats. -/
def wSimpleBlock : Exercise :=
  { type := "warmup", duration_minutes := some (mkRat 15 1) }

/-- The encoding of the single-block plan `[wSimpleBlock]`. -/
def wSimpleEnc : List PyDict × Bool :=
  ((to_coros [wSimpleBlock] ("running")).toOption).getD ([], false)

/-- A non-interval block with `repeats = 1`. -/
def wRepeatOneBlock : Exercise :=
  { type := "warmup", duration_minutes := some (mkRat 10 1), repeats := some 1 }

/-- The encoding of the single-block plan `[wRepeatOneBlock]`. -/
def wRepeatOneEnc : List PyDict × Bool :=
  ((to_coros [wRepeatOneBlock] ("running")).toOption).getD ([], true)

/-- C1: processing a block with `repeats > 1` emits a group record
followed immediately by a work step whose `groupId` equals the group's
`id` and whose `exerciseType` is interval regardless of the block's own
kind, the group and the work step sharing the same `sortNo`; a recovery
step (`exerciseType` recovery, `targetType` duration, `targetValue` =
`rest_seconds`) carrying the same `groupId` follows if and only if
`rest_seconds` is set and nonzero. -/
theorem C1_repeat_group_emission (sc : Int) (recs : List PyDict) (eid sno : Int)
    (ex : Exercise) (r : Int) (hrep : ex.repeats = some r) (hr1 : 1 < r)
    (st2 : List PyDict × Int × Int)
    (h : process_block sc (recs, eid, sno) ex = .ok st2) :
    ∃ group work rest,
      st2.1 = recs ++ [group, work] ++ rest
      ∧ pyGet group ("isGroup") = some (jBool true)
      ∧ pyGet group ("id") = some (jInt eid)
      ∧ pyGet group ("sortNo") = some (jInt sno)
      ∧ pyGet work ("isGroup") = some (jBool false)
      ∧ pyGet work ("exerciseType") = some (jInt ExerciseType.INTERVAL)
      ∧ pyGet work ("groupId") = some (jInt eid)
      ∧ pyGet work ("sortNo") = some (jInt sno)
      ∧ (truthyI ex.rest_seconds = true →
          ∃ recovery, rest = [recovery]
            ∧ pyGet recovery ("exerciseType") = some (jInt ExerciseType.RECOVERY)
            ∧ pyGet recovery ("targetType") = some (jInt TargetType.DURATION)
            ∧ pyGet recovery ("targetValue") = some (jInt (ex.rest_seconds.getD 0))
            ∧ pyGet recovery ("groupId") = some (jInt eid))
      ∧ (truthyI ex.rest_seconds = false → rest = []) := by
  obtain ⟨g, w, rest, h1, h2, h3, h4, h5, h6, h7, h8, h9, h10, h11, h12⟩ :=
    process_block_group_spec sc recs eid sno ex r hrep hr1 st2 h
  refine ⟨g, w, rest, h1, h2, h3, h4, h6, h8, h7, h9, ?_, h12⟩
  intro ht
  obtain ⟨rc, hrc, hgid, hext, htt, htv, _, _, _⟩ := h11 ht
  exact ⟨rc, hrc, hext, htt, htv, hgid⟩

/-- C1 witness: the claim instantiated on the concrete block
`wRepeatBlock` (interval, 800 m, 6 repeats, 90 s rest). -/
theorem C1_repeat_group_emission_witness :
    ∃ group work rest,
      wRepeatState.1 = ([] : List PyDict) ++ [group, work] ++ rest
      ∧ pyGet group ("isGroup") = some (jBool true)
      ∧ pyGet group ("id") = some (jInt 1)
      ∧ pyGet group ("sortNo") = some (jInt 1)
      ∧ pyGet work ("isGroup") = some (jBool false)
      ∧ pyGet work ("exerciseType") = some (jInt ExerciseType.INTERVAL)
      ∧ pyGet work ("groupId") = some (jInt 1)
      ∧ pyGet work ("sortNo") = some (jInt 1)
      ∧ (truthyI wRepeatBlock.rest_seconds = true →
          ∃ recovery, rest = [recovery]
            ∧ pyGet recovery ("exerciseType") = some (jInt ExerciseType.RECOVERY)
            ∧ pyGet recovery ("targetType") = some (jInt TargetType.DURATION)
            ∧ pyGet recovery ("targetValue")
                = some (jInt (wRepeatBlock.rest_seconds.getD 0))
            ∧ pyGet recovery ("groupId") = some (jInt 1))
      ∧ (truthyI wRepeatBlock.rest_seconds = false → rest = []) :=
  C1_repeat_group_emission 1 [] 1 1 wRepeatBlock 6 rfl (by decide) wRepeatState
    (by decide)

/-- C2: for every successful encode, the `id` values of the emitted flat
records are exactly the integers `1..N` in emission order, `N` the total
record count including group records. -/
theorem C2_sequential_ids (blocks : List Exercise) (sport : String)
    (recs : List PyDict) (simple : Bool)
    (h : to_coros blocks sport = .ok (recs, simple)) :
    recs.map (fun d => pyGet d ("id")) = idList recs.length := by
  obtain ⟨sc, parsed, hs, hp, hcase⟩ := to_coros_inv blocks sport (recs, simple) h
  cases hcase with
  | inl hl =>
    obtain ⟨ex, step, hpx, hc, hw, hout⟩ := hl
    have h1 : recs = [step] := congrArg Prod.fst hout
    rw [h1, List.map_cons, List.map_nil, build_step_get_id ex 1 1 sc none step hw]
    rfl
  | inr hr =>
    obtain ⟨hgen, hsnd, hone⟩ := hr
    obtain ⟨st, hloop, hout⟩ := to_coros_general_recs parsed sc (recs, simple) hgen
    have hids := encode_loop_ids sc parsed ([], 1, 1) st hloop (by rfl) (by norm_num)
    have h1 : recs = st.1 := congrArg Prod.fst hout
    rw [h1]
    exact hids

/-- C2 witness: sequential ids on the three records encoded from
`wRepeatBlock`. -/
theorem C2_sequential_ids_witness :
    wEnc.1.map (fun d => pyGet d ("id")) = idList wEnc.1.length :=
  C2_sequential_ids [wRepeatBlock] ("running") wEnc.1 wEnc.2 (by decide)

/-- C3: encoding exactly one valid block whose kind is not interval and
which has no repeats yields `isSimple = true` and a one-element array
whose single step record is not a group and has the empty `groupId`
sentinel. -/
theorem C3_simple_shortcut (ex : Exercise) (sport : String)
    (recs : List PyDict) (simple : Bool)
    (hty : ex.type ≠ "interval") (hrep : ex.repeats = none)
    (h : to_coros [ex] sport = .ok (recs, simple)) :
    simple = true ∧ ∃ step, recs = [step]
      ∧ pyGet step ("isGroup") = some (jBool false)
      ∧ pyGet step ("groupId") = some (jStr ("")) := by
  obtain ⟨sc, parsed, hs, hp, hcase⟩ := to_coros_inv [ex] sport (recs, simple) h
  have hpe : parsed = [ex] := ensureAll_id [ex] parsed hp
  cases hcase with
  | inl hl =>
    obtain ⟨ex2, step, hpx, hc, hw, hout⟩ := hl
    have hee : ex2 = ex := by
      rw [hpe] at hpx
      injection hpx with h1 h2
      exact h1.symm
    subst hee
    have h1 : recs = [step] := congrArg Prod.fst hout
    have h2 : simple = true := congrArg Prod.snd hout
    exact ⟨h2, step, h1, build_step_get_isGroup ex2 1 1 sc none step hw,
      build_step_get_groupId ex2 1 1 sc none step hw⟩
  | inr hr =>
    obtain ⟨hgen, hsnd, hone⟩ := hr
    exfalso
    have hcf := hone ex hpe
    rw [hrep] at hcf
    simp only [truthyI, Bool.not_false, Bool.and_true] at hcf
    have : ex.type = "interval" := by simpa using hcf
    exact hty this

/-- C3 witness: the claim instantiated on a 15-minute warmup block. -/
theorem C3_simple_shortcut_witness :
    wSimpleEnc.2 = true ∧ ∃ step, wSimpleEnc.1 = [step]
      ∧ pyGet step ("isGroup") = some (jBool false)
      ∧ pyGet step ("groupId") = some (jStr ("")) :=
  C3_simple_shortcut wSimpleBlock ("running") wSimpleEnc.1 wSimpleEnc.2
    (by decide) rfl (by decide)

/-- C9: a single valid non-interval block with `repeats = 1` misses the
simple-workout shortcut: the result is `isSimple = false` with a single
step record and no group record. -/
theorem C9_repeats_one_general_path (ex : Exercise) (sport : String)
    (recs : List PyDict) (simple : Bool)
    (hrep : ex.repeats = some 1)
    (h : to_coros [ex] sport = .ok (recs, simple)) :
    simple = false ∧ ∃ step, recs = [step]
      ∧ pyGet step ("isGroup") = some (jBool false) := by
  obtain ⟨sc, parsed, hs, hp, hcase⟩ := to_coros_inv [ex] sport (recs, simple) h
  have hpe : parsed = [ex] := ensureAll_id [ex] parsed hp
  cases hcase with
  | inl hl =>
    obtain ⟨ex2, step, hpx, hc, hw, hout⟩ := hl
    have hee : ex2 = ex := by
      rw [hpe] at hpx
      injection hpx with h1 h2
      exact h1.symm
    exfalso
    subst hee
    rw [hrep] at hc
    simp [truthyI] at hc
  | inr hr =>
    obtain ⟨hgen, hsnd, hone⟩ := hr
    obtain ⟨st, hloop, hout⟩ := to_coros_general_recs parsed sc (recs, simple) hgen
    rw [hpe] at hloop
    unfold encode_loop at hloop
    cases hpb : process_block sc ([], 1, 1) ex with
    | error e =>
      rw [hpb] at hloop
      simp [Bind.bind, Except.bind] at hloop
    | ok st1 =>
      rw [hpb] at hloop
      simp only [Bind.bind, Except.bind] at hloop
      unfold encode_loop at hloop
      injection hloop with hst
      subst hst
      obtain ⟨step, hw, hst1⟩ := process_block_nonrepeat sc [] 1 1 ex
        (by rw [hrep]; decide) st1 hpb
      have h1 : recs = st1.1 := congrArg Prod.fst hout
      have h2 : simple = false := congrArg Prod.snd hout
      rw [hst1] at h1
      refine ⟨h2, step, ?_, build_step_get_isGroup ex 1 1 sc none step hw⟩
      simpa using h1

/-- C9 witness: the claim instantiated on a warmup block with
`repeats = 1`. -/
theorem C9_repeats_one_general_path_witness :
    wRepeatOneEnc.2 = false ∧ ∃ step, wRepeatOneEnc.1 = [step]
      ∧ pyGet step ("isGroup") = some (jBool false) :=
  C9_repeats_one_general_path wRepeatOneBlock ("running") wRepeatOneEnc.1
    wRepeatOneEnc.2 rfl (by decide)

/-- C4 counterexample: at exactly `distance_m = 1000` the decoder takes
the kilometer branch, so the round trip yields `distance_km = 1.0` and no
`distance_m` key at all. -/
theorem C4_counterexample :
    ((to_coros [mkDistM 1000] ("running")).bind (fun p => from_coros p.1))
      = .ok [[("type", jStr ("warmup")), ("distance_km", jRat (mkRat 1 1))]]
    ∧ pyGet [("type", jStr ("warmup")), ("distance_km", jRat (mkRat 1 1))]
        ("distance_m") = none :=
  ⟨by decide, by decide⟩

/-- C4 (amended): the meter round trip holds only below the kilometer
threshold — encoding `distance_m = N` and decoding yields `distance_m = N`
for `0 < N < 1000` (at `N ≥ 1000` the decoder reports `distance_km`
instead); the kilometer round trip holds at centimeter granularity for
`distance_km ≥ 1`. -/
theorem C4_distance_roundtrip :
    (∀ n : Int, 0 < n → n < 1000 →
      ((to_coros [mkDistM n] ("running")).bind (fun p => from_coros p.1))
        = .ok [[("type", jStr ("warmup")), ("distance_m", jInt n)]])
    ∧ (∀ c : Int, 100 ≤ c →
      ((to_coros [mkDistKm (mkRat c 100)] ("running")).bind (fun p => from_coros p.1))
        = .ok [[("type", jStr ("warmup")), ("distance_km", jRat (mkRat c 100))]]) := by
  constructor
  · intro n h0 h1
    rw [to_coros_mkDistM n h0]
    show from_coros [applyTarget (mkDistM n) (_build_step_defaults 1 1 1 1)] = _
    exact from_coros_mkDistM_small n h0 h1
  · intro c hc
    have hq : (0 : Rat) < mkRat c 100 := by
      rw [Rat.mkRat_eq_divInt, Rat.divInt_eq_div]
      have hcq : (0 : Rat) < (c : Rat) := by
        exact_mod_cast (by omega : (0 : Int) < c)
      positivity
    rw [to_coros_mkDistKm (mkRat c 100) hq]
    show from_coros [applyTarget (mkDistKm (mkRat c 100)) (_build_step_defaults 1 1 1 1)] = _
    exact from_coros_mkDistKm_large c hc

/-- C4 witness: the amended round trips instantiated at 500 m and
5.25 km. -/
theorem C4_distance_roundtrip_witness :
    ((to_coros [mkDistM 500] ("running")).bind (fun p => from_coros p.1))
      = .ok [[("type", jStr ("warmup")), ("distance_m", jInt 500)]]
    ∧ ((to_coros [mkDistKm (mkRat 525 100)] ("running")).bind (fun p => from_coros p.1))
      = .ok [[("type", jStr ("warmup")), ("distance_km", jRat (mkRat 525 100))]] :=
  ⟨C4_distance_roundtrip.1 500 (by decide) (by decide),
   C4_distance_roundtrip.2 525 (by decide)⟩

/-- C6: parsing a canonical pace string of shape `M:SS` or `M:SS-M:SS`
with `parse_pace` and formatting the stored sec/km values back through
`_format_pace_value` (the decoder divides the stored value by 1000 first)
reproduces the input string. -/
theorem C6_pace_roundtrip (m1 s1 m2 s2 : Nat) (h1 : s1 < 60) (h2 : s2 < 60) :
    (∃ v, parse_pace (String.mk (paceTok m1 s1)) = some (v, v)
        ∧ _format_pace_value (qDivInt (ratOfInt v) 1000)
            = String.mk (paceTok m1 s1))
    ∧ (∃ v1 v2,
        parse_pace (String.mk (paceTok m1 s1 ++ '-' :: paceTok m2 s2))
            = some (v1, v2)
          ∧ _format_pace_value (qDivInt (ratOfInt v1) 1000) ++ "-"
              ++ _format_pace_value (qDivInt (ratOfInt v2) 1000)
            = String.mk (paceTok m1 s1 ++ '-' :: paceTok m2 s2)) := by
  constructor
  · exact ⟨_, parse_pace_tok m1 s1, format_pace_tok m1 s1 h1⟩
  · refine ⟨_, _, parse_pace_tok_pair m1 s1 m2 s2, ?_⟩
    rw [format_pace_tok m1 s1 h1, format_pace_tok m2 s2 h2]
    rw [show String.mk (paceTok m1 s1) ++ "-" ++ String.mk (paceTok m2 s2)
      = String.mk ((paceTok m1 s1 ++ ['-']) ++ paceTok m2 s2) from rfl]
    rw [List.append_assoc]
    rfl

/-- C6 witness: the round trip at `4:30` and `4:30-5:00`. -/
theorem C6_pace_roundtrip_witness :
    (∃ v, parse_pace (String.mk (paceTok 4 30)) = some (v, v)
        ∧ _format_pace_value (qDivInt (ratOfInt v) 1000)
            = String.mk (paceTok 4 30))
    ∧ (∃ v1 v2,
        parse_pace (String.mk (paceTok 4 30 ++ '-' :: paceTok 5 0))
            = some (v1, v2)
          ∧ _format_pace_value (qDivInt (ratOfInt v1) 1000) ++ "-"
              ++ _format_pace_value (qDivInt (ratOfInt v2) 1000)
            = String.mk (paceTok 4 30 ++ '-' :: paceTok 5 0)) :=
  C6_pace_roundtrip 4 30 5 0 (by decide) (by decide)

/-- C8 counterexample: `parse_hr` does not fail on an input with more
than one hyphen — it silently returns the first two values; the format
error naming the expected pattern comes from the separate validator
`_validate_hr_format`, not from the parser. -/
theorem C8_counterexample :
    parse_hr ("150-160-170") = some (150, 160)
    ∧ _validate_hr_format ("150-160-170")
        = .error ("Invalid HR format '150-160-170'. Use 'BPM' or 'BPM-BPM'") :=
  ⟨by decide, by decide⟩

/-- C8 (amended): `parse_pace` and `parse_hr` are pure total functions on
well-formed tokens; a non-numeric token or a pace token without exactly
one colon makes them fail (with no message naming a pattern); an input
with more than one hyphen is not rejected by the parsers — every token is
parsed and the first two values returned — while the errors naming
`M:SS`/`M:SS-M:SS` and `BPM`/`BPM-BPM` are raised by the model-layer
validators `_validate_pace_format`/`_validate_hr_format`. -/
theorem C8_parser_behaviour :
    (∀ m s : Nat, parse_pace (String.mk (paceTok m s))
        = some (((m : Int) * 60 + (s : Int)) * 1000,
            ((m : Int) * 60 + (s : Int)) * 1000))
    ∧ (∀ a b : Nat, parse_hr (String.mk (natToChars a ++ '-' :: natToChars b))
        = some (Int.ofNat a, (b : Int)))
    ∧ (∀ a b c : Nat,
        parse_hr (String.mk (natToChars a ++ '-' :: (natToChars b ++ '-' :: natToChars c)))
          = some (Int.ofNat a, (b : Int)))
    ∧ parse_pace ("430") = none
    ∧ parse_pace ("4:30-abc") = none
    ∧ parse_hr ("150-xyz") = none
    ∧ parse_pace ("4:30-5:00-6:00") = some (270000, 300000)
    ∧ _validate_pace_format ("4:30-5:00-6:00")
        = .error ("Invalid pace format '4:30-5:00-6:00'. Use 'M:SS' or 'M:SS-M:SS'")
    ∧ _validate_hr_format ("150-160-170")
        = .error ("Invalid HR format '150-160-170'. Use 'BPM' or 'BPM-BPM'") :=
  ⟨parse_pace_tok, parse_hr_tok_pair, parse_hr_tok_triple,
   by decide, by decide, by decide, by decide, by decide, by decide⟩

/-- A block with an invalid exercise kind, used to show the unknown-sport
error precedes block validation. -/
def wBadBlock : Exercise := { type := "sprint" }

/-- C10: sport resolution lowercases its argument before the table
lookup — it succeeds exactly when the lowercase of the argument is a key
of `SPORT_NAME_TO_CODE` (so `Running` and `RUNNING` map to the code of
`running`) — and on an unknown sport `to_coros` fails, before any block
is validated, with an error naming the sport and listing the valid names
in sorted order. -/
theorem C10_sport_resolution :
    (∀ s : String, (∃ c, _resolve_sport s = .ok c)
        ↔ (SPORT_NAME_TO_CODE.lookup (pyLower s)).isSome = true)
    ∧ _resolve_sport ("Running") = .ok 1
    ∧ _resolve_sport ("RUNNING") = .ok 1
    ∧ _resolve_sport ("running") = .ok 1
    ∧ (∀ s : String, SPORT_NAME_TO_CODE.lookup (pyLower s) = none →
        ∀ blocks : List Exercise, to_coros blocks s
          = .error ("Unknown sport '" ++ s
              ++ "'. Use: bike, cycling, hike, open_water, pool_swim, run, running, strength, swim, trail")) := by
  refine ⟨?_, by decide, by decide, by decide, ?_⟩
  · intro s
    cases hl : SPORT_NAME_TO_CODE.lookup (pyLower s) with
    | some c =>
      constructor
      · intro _
        rfl
      · intro _
        refine ⟨c, ?_⟩
        unfold _resolve_sport
        rw [hl]
    | none =>
      constructor
      · rintro ⟨c2, hc⟩
        unfold _resolve_sport at hc
        rw [hl] at hc
        exact Except.noConfusion hc
      · intro hco
        exact Bool.noConfusion hco
  · intro s hnone blocks
    unfold to_coros
    rw [show _resolve_sport s
        = .error ("Unknown sport '" ++ s ++ "'. Use: "
            ++ String.intercalate ", "
              (sortStrings (SPORT_NAME_TO_CODE.map (fun kv => kv.1)))) from by
      unfold _resolve_sport
      rw [hnone]]
    simp only [Bind.bind, Except.bind]
    rw [String.append_assoc]
    rfl

/-- C10 witness: the unknown sport `xyz` fails with the sorted-name
message even though the block list is invalid, and `Bike` resolves. -/
theorem C10_sport_resolution_witness :
    to_coros [wBadBlock] ("xyz")
      = .error ("Unknown sport 'xyz'. Use: bike, cycling, hike, open_water, pool_swim, run, running, strength, swim, trail")
    ∧ (∃ c, _resolve_sport ("Bike") = .ok c) :=
  ⟨C10_sport_resolution.2.2.2.2 ("xyz") (by decide) [wBadBlock],
   (C10_sport_resolution.1 ("Bike")).2 (by decide)⟩

/-- A pace-targeted interval block. -/
def wPaceBlock : Exercise :=
  { type := "interval", distance_m := some 400, pace_per_km := some ("4:30-5:00") }

/-- A heart-rate-targeted interval block. -/
def wHrBlock : Exercise :=
  { type := "interval", duration_minutes := some (mkRat 5 1),
    hr_bpm := some ("150-160") }

/-- The step built from the duration block. -/
def wStepDur : PyDict :=
  ((_build_step wSimpleBlock 1 1 1 none).toOption).getD []

/-- The step built from a 5.25 km block. -/
def wStepKm : PyDict :=
  ((_build_step (mkDistKm (mkRat 525 100)) 1 1 1 none).toOption).getD []

/-- The step built from a 500 m block. -/
def wStepM : PyDict :=
  ((_build_step (mkDistM 500) 1 1 1 none).toOption).getD []

/-- The step built from the pace block. -/
def wStepPace : PyDict :=
  ((_build_step wPaceBlock 1 1 1 none).toOption).getD []

/-- The step built from the heart-rate block. -/
def wStepHr : PyDict :=
  ((_build_step wHrBlock 1 1 1 none).toOption).getD []

/-- C5: the encoder's unit conversions — minutes become truncated seconds
with display unit seconds; kilometers become truncated value × 100000
centimeters with display unit kilometers; meters become value × 100
centimeters with display unit meters; each side of a pace range is parsed
to total seconds × 1000 with `intensityMultiplier = 1000` and a single
value fills `intensityValue` and its extend alike; heart-rate values go
in as raw integer BPM with multiplier 0 (so 15 minutes gives 900 and
`parse_pace` on `4:30-5:00` gives `(270000, 300000)`). -/
theorem C5_unit_conversions :
    (∀ ex a b c ft res d, _build_step ex a b c ft = .ok res →
        ex.duration_minutes = some d → d ≠ 0 →
        pyGet res ("targetType") = some (jInt TargetType.DURATION)
          ∧ pyGet res ("targetValue") = some (jInt (qTrunc (qMulInt d 60)))
          ∧ pyGet res ("targetDisplayUnit") = some (jInt TargetDisplayUnit.SECONDS))
    ∧ (∀ ex a b c ft res q, _build_step ex a b c ft = .ok res →
        ex.duration_minutes = none → ex.distance_km = some q → q ≠ 0 →
        pyGet res ("targetType") = some (jInt TargetType.DISTANCE)
          ∧ pyGet res ("targetValue") = some (jInt (qTrunc (qMulInt q 100000)))
          ∧ pyGet res ("targetDisplayUnit") = some (jInt TargetDisplayUnit.KILOMETERS))
    ∧ (∀ ex a b c ft res n, _build_step ex a b c ft = .ok res →
        ex.duration_minutes = none → ex.distance_km = none →
        ex.distance_m = some n → n ≠ 0 →
        pyGet res ("targetType") = some (jInt TargetType.DISTANCE)
          ∧ pyGet res ("targetValue") = some (jInt (n * 100))
          ∧ pyGet res ("targetDisplayUnit") = some (jInt TargetDisplayUnit.METERS))
    ∧ (∀ ex a b c ft res p lo hi, _build_step ex a b c ft = .ok res →
        ex.pace_per_km = some p → p ≠ "" → parse_pace p = some (lo, hi) →
        pyGet res ("intensityType") = some (jInt 3)
          ∧ pyGet res ("intensityValue") = some (jInt lo)
          ∧ pyGet res ("intensityValueExtend") = some (jInt hi)
          ∧ pyGet res ("intensityMultiplier") = some (jInt 1000))
    ∧ (∀ ex a b c ft res t lo hi, _build_step ex a b c ft = .ok res →
        ex.pace_per_km = none → ex.hr_bpm = some t → t ≠ "" →
        parse_hr t = some (lo, hi) →
        pyGet res ("intensityType") = some (jInt 2)
          ∧ pyGet res ("intensityValue") = some (jInt lo)
          ∧ pyGet res ("intensityValueExtend") = some (jInt hi)
          ∧ pyGet res ("intensityMultiplier") = some (jInt 0))
    ∧ parse_pace ("4:30-5:00") = some (270000, 300000)
    ∧ qTrunc (qMulInt (mkRat 15 1) 60) = 900
    ∧ (∀ m s : Nat, parse_pace (String.mk (paceTok m s))
        = some (((m : Int) * 60 + (s : Int)) * 1000,
            ((m : Int) * 60 + (s : Int)) * 1000)) := by
  refine ⟨?_, ?_, ?_, ?_, ?_, by decide, by decide, parse_pace_tok⟩
  · intro ex a b c ft res d hbs hdur hd0
    have htr : truthyQ ex.duration_minutes = true := by
      rw [hdur]
      simp only [truthyQ]
      simpa using Rat.num_ne_zero.2 hd0
    obtain ⟨hTT, hTV, hTU⟩ :=
      applyTarget_duration_get ex (_build_step_defaults a b (buildExType ex ft) c) htr
    rw [hdur] at hTV
    simp only [Option.getD_some] at hTV
    refine ⟨?_, ?_, ?_⟩
    · rw [build_step_target_get ex a b c ft res hbs _ (by decide) (by decide)
        (by decide) (by decide) (by decide) (by decide) (by decide) (by decide)]
      exact hTT
    · rw [build_step_target_get ex a b c ft res hbs _ (by decide) (by decide)
        (by decide) (by decide) (by decide) (by decide) (by decide) (by decide)]
      exact hTV
    · rw [build_step_target_get ex a b c ft res hbs _ (by decide) (by decide)
        (by decide) (by decide) (by decide) (by decide) (by decide) (by decide)]
      exact hTU
  · intro ex a b c ft res q hbs hdm hkm hq0
    have hd : truthyQ ex.duration_minutes = false := by
      rw [hdm]
      rfl
    have hk : truthyQ ex.distance_km = true := by
      rw [hkm]
      simp only [truthyQ]
      simpa using Rat.num_ne_zero.2 hq0
    obtain ⟨hTT, hTV, hTU⟩ :=
      applyTarget_km_get ex (_build_step_defaults a b (buildExType ex ft) c) hd hk
    rw [hkm] at hTV
    simp only [Option.getD_some] at hTV
    refine ⟨?_, ?_, ?_⟩
    · rw [build_step_target_get ex a b c ft res hbs _ (by decide) (by decide)
        (by decide) (by decide) (by decide) (by decide) (by decide) (by decide)]
      exact hTT
    · rw [build_step_target_get ex a b c ft res hbs _ (by decide) (by decide)
        (by decide) (by decide) (by decide) (by decide) (by decide) (by decide)]
      exact hTV
    · rw [build_step_target_get ex a b c ft res hbs _ (by decide) (by decide)
        (by decide) (by decide) (by decide) (by decide) (by decide) (by decide)]
      exact hTU
  · intro ex a b c ft res n hbs hdm hkm hm hn0
    have hd : truthyQ ex.duration_minutes = false := by
      rw [hdm]
      rfl
    have hk : truthyQ ex.distance_km = false := by
      rw [hkm]
      rfl
    have hmt : truthyI ex.distance_m = true := by
      rw [hm]
      simp only [truthyI]
      simpa using hn0
    obtain ⟨hTT, hTV, hTU⟩ :=
      applyTarget_m_get ex (_build_step_defaults a b (buildExType ex ft) c) hd hk hmt
    rw [hm] at hTV
    simp only [Option.getD_some] at hTV
    refine ⟨?_, ?_, ?_⟩
    · rw [build_step_target_get ex a b c ft res hbs _ (by decide) (by decide)
        (by decide) (by decide) (by decide) (by decide) (by decide) (by decide)]
      exact hTT
    · rw [build_step_target_get ex a b c ft res hbs _ (by decide) (by decide)
        (by decide) (by decide) (by decide) (by decide) (by decide) (by decide)]
      exact hTV
    · rw [build_step_target_get ex a b c ft res hbs _ (by decide) (by decide)
        (by decide) (by decide) (by decide) (by decide) (by decide) (by decide)]
      exact hTU
  · intro ex a b c ft res p lo hi hbs hp hpne hparse
    have hps : truthyS ex.pace_per_km = true := by
      rw [hp]
      simp only [truthyS]
      simpa using hpne
    have hparse2 : parse_pace (ex.pace_per_km.getD "") = some (lo, hi) := by
      rw [hp]
      exact hparse
    unfold _build_step at hbs
    exact applyIntensity_pace_get ex _ res hps lo hi hparse2 hbs
  · intro ex a b c ft res t lo hi hbs hpn hh hhne hparse
    have hp0 : truthyS ex.pace_per_km = false := by
      rw [hpn]
      rfl
    have hht : truthyS ex.hr_bpm = true := by
      rw [hh]
      simp only [truthyS]
      simpa using hhne
    have hparse2 : parse_hr (ex.hr_bpm.getD "") = some (lo, hi) := by
      rw [hh]
      exact hparse
    unfold _build_step at hbs
    exact applyIntensity_hr_get ex _ res hp0 hht lo hi hparse2 hbs

/-- C5 witness: the five conversions instantiated on concrete blocks
(15 minutes, 5.25 km, 500 m, pace `4:30-5:00`, HR `150-160`). -/
theorem C5_unit_conversions_witness :
    (pyGet wStepDur ("targetType") = some (jInt TargetType.DURATION)
      ∧ pyGet wStepDur ("targetValue") = some (jInt (qTrunc (qMulInt (mkRat 15 1) 60)))
      ∧ pyGet wStepDur ("targetDisplayUnit") = some (jInt TargetDisplayUnit.SECONDS))
    ∧ (pyGet wStepKm ("targetType") = some (jInt TargetType.DISTANCE)
      ∧ pyGet wStepKm ("targetValue")
          = some (jInt (qTrunc (qMulInt (mkRat 525 100) 100000)))
      ∧ pyGet wStepKm ("targetDisplayUnit") = some (jInt TargetDisplayUnit.KILOMETERS))
    ∧ (pyGet wStepM ("targetType") = some (jInt TargetType.DISTANCE)
      ∧ pyGet wStepM ("targetValue") = some (jInt (500 * 100))
      ∧ pyGet wStepM ("targetDisplayUnit") = some (jInt TargetDisplayUnit.METERS))
    ∧ (pyGet wStepPace ("intensityType") = some (jInt 3)
      ∧ pyGet wStepPace ("intensityValue") = some (jInt 270000)
      ∧ pyGet wStepPace ("intensityValueExtend") = some (jInt 300000)
      ∧ pyGet wStepPace ("intensityMultiplier") = some (jInt 1000))
    ∧ (pyGet wStepHr ("intensityType") = some (jInt 2)
      ∧ pyGet wStepHr ("intensityValue") = some (jInt 150)
      ∧ pyGet wStepHr ("intensityValueExtend") = some (jInt 160)
      ∧ pyGet wStepHr ("intensityMultiplier") = some (jInt 0)) :=
  ⟨C5_unit_conversions.1 wSimpleBlock 1 1 1 none wStepDur (mkRat 15 1)
      (by decide) rfl (by decide),
   C5_unit_conversions.2.1 (mkDistKm (mkRat 525 100)) 1 1 1 none wStepKm
      (mkRat 525 100) (by decide) rfl rfl (by decide),
   C5_unit_conversions.2.2.1 (mkDistM 500) 1 1 1 none wStepM 500
      (by decide) rfl rfl rfl (by decide),
   C5_unit_conversions.2.2.2.1 wPaceBlock 1 1 1 none wStepPace ("4:30-5:00")
      270000 300000 (by decide) rfl (by decide) (by decide),
   C5_unit_conversions.2.2.2.2.1 wHrBlock 1 1 1 none wStepHr ("150-160")
      150 160 (by decide) rfl rfl (by decide) (by decide)⟩

/-! Totality of the decoder on well-typed records. -/

/-- A possibly missing value that is absent or an integer (the only shapes
the encoder ever writes into the numeric step fields). -/
def intLikeOpt : Option JVal → Bool
  | none => true
  | some (jInt _) => true
  | some _ => false

/-- The three record fields the decoder does arithmetic on are absent or
integers. -/
def wellTypedRec (ex : PyDict) : Bool :=
  intLikeOpt (pyGet ex ("targetValue")) && intLikeOpt (pyGet ex ("intensityValue"))
    && intLikeOpt (pyGet ex ("intensityValueExtend"))

theorem intLikeOpt_getD (o : Option JVal) (h : intLikeOpt o = true) :
    ∃ n, o.getD (jInt 0) = jInt n := by
  cases o with
  | none => exact ⟨0, rfl⟩
  | some v =>
    cases v with
    | jInt n => exact ⟨n, rfl⟩
    | jRat q => exact Bool.noConfusion h
    | jStr s => exact Bool.noConfusion h
    | jBool b => exact Bool.noConfusion h
    | jIntList l => exact Bool.noConfusion h

theorem except_bind_ok {α β : Type} (a : α) (f : α → Except String β) :
    Except.bind (pure a) f = f a := rfl

/-- `decode_step` never raises on a well-typed record: every absent field
is tolerated through a `.get` default. -/
theorem decode_step_total (groups : GroupsDict) (ex : PyDict)
    (h : wellTypedRec ex = true) :
    ∃ entry, decode_step groups ex = .ok entry := by
  simp only [wellTypedRec, Bool.and_eq_true] at h
  obtain ⟨⟨h1, h2⟩, h3⟩ := h
  obtain ⟨tv, htv⟩ := intLikeOpt_getD _ h1
  obtain ⟨iv, hiv⟩ := intLikeOpt_getD _ h2
  obtain ⟨ie, hie⟩ := intLikeOpt_getD _ h3
  have hok : (decode_step groups ex).isOk = true := by
    unfold decode_step
    rw [htv, hiv, hie]
    simp only [Bind.bind, JVal.asNum]
    repeat' split
    all_goals rfl
  cases he : decode_step groups ex with
  | error e =>
    rw [he] at hok
    exact Bool.noConfusion hok
  | ok entry => exact ⟨entry, rfl⟩

/-- The decoder's loop succeeds when every group record carries an `id`
and every step record is well typed. -/
theorem from_coros_go_total (exs : List PyDict) :
    ∀ groups acc,
    (∀ ex ∈ exs,
      (pyTruthy (pyGet ex ("isGroup")) = true → (pyGet ex ("id")).isSome = true)
        ∧ (pyTruthy (pyGet ex ("isGroup")) = false → wellTypedRec ex = true)) →
    ∃ out, from_coros_go groups acc exs = .ok out := by
  induction exs with
  | nil =>
    intro groups acc h
    exact ⟨acc, rfl⟩
  | cons ex rest ih =>
    intro groups acc h
    obtain ⟨h1, h2⟩ := h ex (List.mem_cons_self ex rest)
    have hrest : ∀ e ∈ rest,
        (pyTruthy (pyGet e ("isGroup")) = true → (pyGet e ("id")).isSome = true)
          ∧ (pyTruthy (pyGet e ("isGroup")) = false → wellTypedRec e = true) :=
      fun e he => h e (List.mem_cons_of_mem _ he)
    unfold from_coros_go
    cases hb : pyTruthy (pyGet ex ("isGroup")) with
    | true =>
      rw [if_pos rfl]
      have hid := h1 hb
      cases hidv : pyGet ex ("id") with
      | none =>
        rw [hidv] at hid
        exact Bool.noConfusion hid
      | some idv =>
        exact ih _ _ hrest
    | false =>
      rw [if_neg (by simp)]
      obtain ⟨entry, hent⟩ := decode_step_total groups ex (h2 hb)
      rw [hent]
      simp only [Bind.bind, Except.bind]
      exact ih _ _ hrest

/-- C7 counterexample: a group record without an `id` field makes the
decoder raise a `KeyError` — a missing field on which decode does fail. -/
theorem C7_counterexample :
    from_coros [[("isGroup", jBool true)]] = .error ("KeyError") := by decide

/-- C7 (amended): decode tolerates missing optional fields on step
records — on any input whose records keep the arithmetic fields absent or
integer-typed it never raises, and a record with no fields at all decodes
to just a placeholder type name — except that a group record (truthy
`isGroup`) missing `id` raises a `KeyError` via the unguarded
`groups[ex["id"]]` subscript. -/
theorem C7_decode_missing_fields :
    (∀ exs : List PyDict,
      (∀ ex ∈ exs,
        (pyTruthy (pyGet ex ("isGroup")) = true → (pyGet ex ("id")).isSome = true)
          ∧ (pyTruthy (pyGet ex ("isGroup")) = false → wellTypedRec ex = true)) →
      ∃ out, from_coros exs = .ok out)
    ∧ (∀ groups, decode_step groups ([] : PyDict)
        = .ok [("type", jStr ("type_None"))])
    ∧ from_coros [[("isGroup", jBool true)]] = .error ("KeyError") := by
  refine ⟨?_, ?_, by decide⟩
  · intro exs h
    exact from_coros_go_total exs [] [] h
  · intro groups
    rfl

/-- C7 witness: a group with `id` and a bare step record decode without
an error. -/
theorem C7_decode_missing_fields_witness :
    ∃ out, from_coros
        [[("isGroup", jBool true), ("id", jInt 1), ("sets", jInt 6)],
         [("exerciseType", jInt 2)]] = .ok out :=
  C7_decode_missing_fields.1
    [[("isGroup", jBool true), ("id", jInt 1), ("sets", jInt 6)],
     [("exerciseType", jInt 2)]]
    (by decide)

end CorosSpec
